import Mathlib

set_option maxRecDepth 100000

/-
Verification development for the pokayokay hook bridge
(`plugins/pokayokay/hooks/actions/bridge.py`).

The bridge is a short-lived process: it reads one JSON event envelope from
standard input, routes it to a handler, runs external action scripts under
sanitization, rate limiting and timeouts, persists chain/failure/token
state, and prints one JSON object.

Shallow embedding conventions used throughout this file:
* Python strings are `List Char`; `cl` converts a Lean string literal.
* JSON-decoded Python values are `PyJson` (numeric JSON values are
  modelled as integers; the bridge never does arithmetic on fractional
  JSON numbers).
* Python exceptions are modelled with `Except PyError`; functions that
  cannot raise are written as plain functions.
* `World` packages the process environment: `os.environ`, the current
  time, which scripts exist and what their processes do, the behaviour of
  `json.loads`, and the parsed config file.  `St` carries the mutable
  module state (rate-limiter windows, WIP tracking), the persisted JSON
  stores (chain state, failure tracking, token usage) and an append-only
  trace of observable effects (spawned processes, memory-file writes,
  stderr output).
* Knowledge-document writes (`memory/*.md`) are recorded as effects with
  their arguments; the markdown contents of those documents are outside
  the model.
* `str.isprintable` and `\s` character classes are modelled on the ASCII
  range; all characters the bridge treats specially (the shell
  metacharacter set, markers such as ": PASS") are ASCII.
-/

/-- Convert a Lean string literal to the `List Char` representation used for
Python strings in this embedding. -/
def cl (s : String) : List Char := s.data

/-- The backquote character (written via its code point). -/
def backquoteChar : Char := Char.ofNat 96

/-- The single-quote character (written via its code point). -/
def squoteChar : Char := Char.ofNat 39

/-- The opening curly brace character. -/
def lbraceChar : Char := Char.ofNat 123

/-- The closing curly brace character. -/
def rbraceChar : Char := Char.ofNat 125

/-- `SHELL_METACHARACTERS` from bridge.py line 29: shell metacharacters that
could enable command injection. -/
def SHELL_METACHARACTERS : List Char :=
  [';', '|', '&', '$', backquoteChar, '(', ')', '<', '>']

/-- Membership in `SHELL_METACHARACTERS`, as a Boolean. -/
def isMetaChar (c : Char) : Bool := SHELL_METACHARACTERS.contains c

/-- Python `str.isprintable`, modelled on the ASCII range: the printable
ASCII characters are 0x20..0x7e.  (Non-ASCII printability is not modelled;
every character the bridge inspects is ASCII.) -/
def pyIsPrintable (c : Char) : Bool := 0x20 ≤ c.toNat && c.toNat ≤ 0x7e

/-- Python ASCII whitespace for `str.strip` / the regex class `\s`. -/
def isPySpace (c : Char) : Bool :=
  c = ' ' || c = '\t' || c = '\n' || c = '\x0d' || c = Char.ofNat 11 || c = Char.ofNat 12

/-- Python `str.strip()`: drop ASCII whitespace from both ends. -/
def stripWS (s : List Char) : List Char :=
  ((s.dropWhile isPySpace).reverse.dropWhile isPySpace).reverse

/-- Python `str.lower()`, on the ASCII range. -/
def lowerCL (s : List Char) : List Char := s.map Char.toLower

/-- Python substring containment `needle in haystack` for strings. -/
def pyIn (needle : List Char) : List Char → Bool
  | [] => needle.isEmpty
  | c :: rest => needle.isPrefixOf (c :: rest) || pyIn needle rest

/-- Values decoded from JSON (and the Python values the bridge builds from
them).  JSON numbers are modelled as integers. -/
inductive PyJson where
  | null : PyJson
  | bool (b : Bool) : PyJson
  | num (n : Int) : PyJson
  | str (s : List Char) : PyJson
  | arr (elems : List PyJson) : PyJson
  | obj (fields : List (List Char × PyJson)) : PyJson

mutual

/-- Boolean equality on `PyJson` (nested inductive, so spelled out by hand). -/
def pyBeq : PyJson → PyJson → Bool
  | .null, .null => true
  | .bool a, .bool b => a == b
  | .num a, .num b => a == b
  | .str a, .str b => a == b
  | .arr xs, .arr ys => pyBeqList xs ys
  | .obj xs, .obj ys => pyBeqFields xs ys
  | _, _ => false

/-- Boolean equality on lists of `PyJson`. -/
def pyBeqList : List PyJson → List PyJson → Bool
  | [], [] => true
  | a :: as_, b :: bs => pyBeq a b && pyBeqList as_ bs
  | _, _ => false

/-- Boolean equality on dict entry lists. -/
def pyBeqFields : List (List Char × PyJson) → List (List Char × PyJson) → Bool
  | [], [] => true
  | (k1, v1) :: as_, (k2, v2) :: bs => k1 == k2 && pyBeq v1 v2 && pyBeqFields as_ bs
  | _, _ => false

end

mutual

/-- `pyBeq` decides equality. -/
def pyBeq_eq_true_iff : (a b : PyJson) → (pyBeq a b = true ↔ a = b)
  | .null, .null => by simp [pyBeq]
  | .null, .bool _ => by simp [pyBeq]
  | .null, .num _ => by simp [pyBeq]
  | .null, .str _ => by simp [pyBeq]
  | .null, .arr _ => by simp [pyBeq]
  | .null, .obj _ => by simp [pyBeq]
  | .bool _, .null => by simp [pyBeq]
  | .bool _, .bool _ => by simp [pyBeq]
  | .bool _, .num _ => by simp [pyBeq]
  | .bool _, .str _ => by simp [pyBeq]
  | .bool _, .arr _ => by simp [pyBeq]
  | .bool _, .obj _ => by simp [pyBeq]
  | .num _, .null => by simp [pyBeq]
  | .num _, .bool _ => by simp [pyBeq]
  | .num _, .num _ => by simp [pyBeq]
  | .num _, .str _ => by simp [pyBeq]
  | .num _, .arr _ => by simp [pyBeq]
  | .num _, .obj _ => by simp [pyBeq]
  | .str _, .null => by simp [pyBeq]
  | .str _, .bool _ => by simp [pyBeq]
  | .str _, .num _ => by simp [pyBeq]
  | .str _, .str _ => by simp [pyBeq]
  | .str _, .arr _ => by simp [pyBeq]
  | .str _, .obj _ => by simp [pyBeq]
  | .arr _, .null => by simp [pyBeq]
  | .arr _, .bool _ => by simp [pyBeq]
  | .arr _, .num _ => by simp [pyBeq]
  | .arr _, .str _ => by simp [pyBeq]
  | .arr xs, .arr ys => by simp [pyBeq, pyBeqList_eq_true_iff xs ys]
  | .arr _, .obj _ => by simp [pyBeq]
  | .obj _, .null => by simp [pyBeq]
  | .obj _, .bool _ => by simp [pyBeq]
  | .obj _, .num _ => by simp [pyBeq]
  | .obj _, .str _ => by simp [pyBeq]
  | .obj _, .arr _ => by simp [pyBeq]
  | .obj xs, .obj ys => by simp [pyBeq, pyBeqFields_eq_true_iff xs ys]

/-- `pyBeqList` decides equality. -/
def pyBeqList_eq_true_iff : (a b : List PyJson) → (pyBeqList a b = true ↔ a = b)
  | [], [] => by simp [pyBeqList]
  | [], _ :: _ => by simp [pyBeqList]
  | _ :: _, [] => by simp [pyBeqList]
  | a :: as_, b :: bs => by
      simp [pyBeqList, pyBeq_eq_true_iff a b, pyBeqList_eq_true_iff as_ bs]

/-- `pyBeqFields` decides equality. -/
def pyBeqFields_eq_true_iff :
    (a b : List (List Char × PyJson)) → (pyBeqFields a b = true ↔ a = b)
  | [], [] => by simp [pyBeqFields]
  | [], _ :: _ => by simp [pyBeqFields]
  | _ :: _, [] => by simp [pyBeqFields]
  | (k1, v1) :: as_, (k2, v2) :: bs => by
      simp [pyBeqFields, pyBeq_eq_true_iff v1 v2, pyBeqFields_eq_true_iff as_ bs,
        and_assoc]

end

instance : DecidableEq PyJson :=
  fun a b => decidable_of_iff (pyBeq a b = true) (pyBeq_eq_true_iff a b)

/-- Modelled Python exceptions that can escape the bridge functions. -/
inductive PyError where
  | attributeError : PyError
  | keyError : PyError
  | typeError : PyError
deriving DecidableEq

instance {ε α : Type} [DecidableEq ε] [DecidableEq α] : DecidableEq (Except ε α) :=
  fun a b =>
    match a, b with
    | .error e, .error f =>
        if h : e = f then .isTrue (congrArg Except.error h)
        else .isFalse (fun hh => h (Except.error.inj hh))
    | .error _, .ok _ => .isFalse (fun hh => Except.noConfusion hh)
    | .ok _, .error _ => .isFalse (fun hh => Except.noConfusion hh)
    | .ok x, .ok y =>
        if h : x = y then .isTrue (congrArg Except.ok h)
        else .isFalse (fun hh => h (Except.ok.inj hh))

/-- Decimal digit character. -/
def digitChar (d : Nat) : Char := Char.ofNat (48 + d)

/-- Decimal rendering with an explicit recursion bound (`fuel ≥ n` makes the
fallback branch unreachable). -/
def natCharsAux : Nat → Nat → List Char
  | 0, n => [digitChar n]
  | fuel + 1, n =>
      if n < 10 then [digitChar n]
      else natCharsAux fuel (n / 10) ++ [digitChar (n % 10)]

/-- Decimal rendering of a natural number. -/
def natChars (n : Nat) : List Char := natCharsAux n n

/-- Python `str` of an integer. -/
def intChars (i : Int) : List Char :=
  if i < 0 then '-' :: natChars i.natAbs else natChars i.natAbs

mutual

/-- Python `repr` of a JSON-decoded value (string values quoted with single
quotes; quote-escaping corner cases are not modelled). -/
def pyRepr : PyJson → List Char
  | .null => cl "None"
  | .bool true => cl "True"
  | .bool false => cl "False"
  | .num n => intChars n
  | .str s => squoteChar :: s ++ [squoteChar]
  | .arr xs => '[' :: pyReprArr xs ++ [']']
  | .obj fs => lbraceChar :: pyReprObj fs ++ [rbraceChar]

/-- Comma-joined `repr` of list elements. -/
def pyReprArr : List PyJson → List Char
  | [] => []
  | [x] => pyRepr x
  | x :: y :: rest => pyRepr x ++ cl ", " ++ pyReprArr (y :: rest)

/-- Comma-joined `repr` of dict entries. -/
def pyReprObj : List (List Char × PyJson) → List Char
  | [] => []
  | [(k, v)] => (squoteChar :: k ++ [squoteChar]) ++ cl ": " ++ pyRepr v
  | (k, v) :: e :: rest =>
      (squoteChar :: k ++ [squoteChar]) ++ cl ": " ++ pyRepr v ++ cl ", " ++ pyReprObj (e :: rest)

end

/-- Python `str()` of a JSON-decoded value: a string renders as itself,
everything else as its `repr`. -/
def pyStr (j : PyJson) : List Char :=
  match j with
  | .str s => s
  | v => pyRepr v

mutual

/-- JSON serialization of a `PyJson` value (`json.dumps`), double-quoted
strings, used only to record subprocess arguments in the effect trace. -/
def pyJsonDumps : PyJson → List Char
  | .null => cl "null"
  | .bool true => cl "true"
  | .bool false => cl "false"
  | .num n => intChars n
  | .str s => '"' :: s ++ ['"']
  | .arr xs => '[' :: pyDumpsArr xs ++ [']']
  | .obj fs => lbraceChar :: pyDumpsObj fs ++ [rbraceChar]

/-- Comma-joined serialization of list elements. -/
def pyDumpsArr : List PyJson → List Char
  | [] => []
  | [x] => pyJsonDumps x
  | x :: y :: rest => pyJsonDumps x ++ cl ", " ++ pyDumpsArr (y :: rest)

/-- Comma-joined serialization of dict entries. -/
def pyDumpsObj : List (List Char × PyJson) → List Char
  | [] => []
  | [(k, v)] => ('"' :: k ++ ['"']) ++ cl ": " ++ pyJsonDumps v
  | (k, v) :: e :: rest =>
      ('"' :: k ++ ['"']) ++ cl ": " ++ pyJsonDumps v ++ cl ", " ++ pyDumpsObj (e :: rest)

end

/-- Python truthiness of a JSON-decoded value. -/
def pyTruthy : PyJson → Bool
  | .null => false
  | .bool b => b
  | .num n => n ≠ 0
  | .str s => ¬s.isEmpty
  | .arr xs => ¬xs.isEmpty
  | .obj fs => ¬fs.isEmpty

/-- Look up a key in a decoded dict (`fields` keeps insertion order). -/
def pyLookup (fields : List (List Char × PyJson)) (k : List Char) : Option PyJson :=
  (fields.find? (fun kv => kv.1 = k)).map (fun kv => kv.2)

/-- Python `d.get(k, default)`: raises `AttributeError` when the receiver is
not a dict. -/
def pyGetE (j : PyJson) (k : List Char) (dflt : PyJson) : Except PyError PyJson :=
  match j with
  | .obj fs => .ok ((pyLookup fs k).getD dflt)
  | _ => .error .attributeError

/-- Python `d[k]` on a dict: `KeyError` when absent, `TypeError` when the
receiver is not a dict. -/
def pyIndexE (j : PyJson) (k : List Char) : Except PyError PyJson :=
  match j with
  | .obj fs =>
      match pyLookup fs k with
      | some v => .ok v
      | none => .error .keyError
  | _ => .error .typeError

/-- Python `d[k] = v`: replace the first binding of `k` or append one. -/
def pyObjSet (fields : List (List Char × PyJson)) (k : List Char) (v : PyJson) :
    List (List Char × PyJson) :=
  if (fields.find? (fun kv => kv.1 = k)).isSome then
    fields.map (fun kv => if kv.1 = k then (k, v) else kv)
  else fields ++ [(k, v)]

/-- Python `x.lower()`: raises `AttributeError` on non-strings. -/
def pyLowerE (j : PyJson) : Except PyError (List Char) :=
  match j with
  | .str s => .ok (lowerCL s)
  | _ => .error .attributeError

/-- Python `needle in container` where `needle` is a string: substring test
on strings, membership on lists, key membership on dicts, `TypeError`
otherwise. -/
def pyContainsE (container : PyJson) (needle : List Char) : Except PyError Bool :=
  match container with
  | .str s => .ok (pyIn needle s)
  | .arr xs => .ok (xs.contains (.str needle))
  | .obj fs => .ok ((fs.find? (fun kv => kv.1 = needle)).isSome)
  | _ => .error .typeError

/-- Python slicing `x[:n]` on strings and lists; `TypeError` otherwise. -/
def pySliceE (j : PyJson) (n : Nat) : Except PyError PyJson :=
  match j with
  | .str s => .ok (.str (s.take n))
  | .arr xs => .ok (.arr (xs.take n))
  | _ => .error .typeError

/-- Python `"sep".join(xs)` over decoded values: every element must be a
string, otherwise `TypeError`. -/
def pyJoinE (sep : List Char) : List PyJson → Except PyError (List Char)
  | [] => .ok []
  | [x] =>
      match x with
      | .str s => .ok s
      | _ => .error .typeError
  | x :: y :: rest =>
      match x with
      | .str s => do
          let r ← pyJoinE sep (y :: rest)
          .ok (s ++ sep ++ r)
      | _ => .error .typeError

/-- Python `a or b` on decoded values. -/
def pyOr (a b : PyJson) : PyJson := if pyTruthy a then a else b

/-
============================================================================
Sanitizer (bridge.py lines 22-104)
============================================================================
-/

/-- The payload of a raised `DangerousValueError` (bridge.py lines 22-24,
96-102): the offending field name and the distinct dangerous characters
found.  Python iterates `set(dangerous_found)`; the set's iteration order is
hash-dependent, modelled here as first-occurrence order. -/
structure DangerousErr where
  field_name : List Char
  chars : List Char
deriving DecidableEq

/-- First-occurrence deduplication (model of `set(...)` iteration). -/
def dedupFirst : List Char → List Char
  | [] => []
  | c :: rest => c :: (dedupFirst rest).filter (fun d => d ≠ c)

/-- The non-printable filter of `sanitize_env_value` (line 93): keep
printable characters plus space and tab. -/
def stripNonPrintable (s : List Char) : List Char :=
  s.filter (fun c => pyIsPrintable c || c = ' ' || c = '\t')

/-- The `str(e)` message of a `DangerousValueError` (lines 99-101). -/
def dangerousMsg (e : DangerousErr) : List Char :=
  cl "Field " ++ (squoteChar :: e.field_name ++ [squoteChar]) ++
    cl " contains dangerous shell characters: " ++
    (List.intercalate (cl ", ") (e.chars.map (fun c => [squoteChar, c, squoteChar])))

/-- `sanitize_env_value` (bridge.py lines 72-104).  Non-strings are
converted with `str` and returned immediately (lines 89-90); strings are
stripped of non-printables and rejected if any shell metacharacter
remains. -/
def sanitize_env_value (value : PyJson) (field_name : List Char) :
    Except DangerousErr (List Char) :=
  match value with
  | .str s =>
      let sanitized := stripNonPrintable s
      let dangerous_found := sanitized.filter isMetaChar
      if dangerous_found = [] then .ok sanitized
      else .error ⟨field_name, dedupFirst dangerous_found⟩
  | v => .ok (pyStr v)

/-- The dict comprehension of `run_action` line 162: sanitize every override
in insertion order; the first `DangerousValueError` aborts the whole set. -/
def sanitizeEnvAll : List (List Char × PyJson) →
    Except DangerousErr (List (List Char × List Char))
  | [] => .ok []
  | (k, v) :: rest => do
      let sv ← sanitize_env_value v k
      let r ← sanitizeEnvAll rest
      .ok ((k, sv) :: r)

/-
============================================================================
Rate limiter and timeouts (bridge.py lines 55-138)
============================================================================
-/

/-- `RATE_LIMIT_MAX_EXECUTIONS` (line 56). -/
def RATE_LIMIT_MAX_EXECUTIONS : Nat := 10

/-- `RATE_LIMIT_WINDOW_SECONDS` (line 57).  Timestamps are integers
(seconds), standing in for Python floats; the bridge only compares
timestamp differences against whole-second thresholds. -/
def RATE_LIMIT_WINDOW_SECONDS : Int := 60

/-- `check_rate_limit` (bridge.py lines 112-133), with the per-hook
timestamp list and the current time passed explicitly.  Returns the
optional rejection message and the new timestamp list (the in-place pruned
list, plus `now` when admitted). -/
def check_rate_limit (hook_name : List Char) (executions : List Int) (now : Int) :
    Option (List Char) × List Int :=
  let kept := executions.filter (fun t => now - t < RATE_LIMIT_WINDOW_SECONDS)
  if RATE_LIMIT_MAX_EXECUTIONS ≤ kept.length then
    (some (cl "Rate limited: " ++ hook_name ++ cl " exceeded " ++
      natChars RATE_LIMIT_MAX_EXECUTIONS ++ cl " executions per minute"), kept)
  else
    (none, kept ++ [now])

/-- `HOOK_TIMEOUTS` (bridge.py lines 33-53). -/
def HOOK_TIMEOUTS : List (List Char × Nat) :=
  [(cl "default", 30), (cl "test", 120), (cl "audit-gate", 60), (cl "lint", 60),
   (cl "check-ref-sizes", 10), (cl "sync", 30), (cl "commit", 30),
   (cl "verify-tasks", 15), (cl "verify-clean", 10), (cl "check-blockers", 10),
   (cl "suggest-skills", 10), (cl "detect-spike", 10), (cl "capture-knowledge", 15),
   (cl "session-summary", 15), (cl "session-chain", 30), (cl "post-review-fail", 30),
   (cl "recover", 30), (cl "pre-flight", 30), (cl "graduate-rules", 10)]

/-- `get_timeout` (bridge.py lines 136-138). -/
def get_timeout (hook_name : List Char) : Nat :=
  match HOOK_TIMEOUTS.find? (fun kv => kv.1 = hook_name) with
  | some kv => kv.2
  | none => 30

/-
============================================================================
Process world and bridge state
============================================================================
-/

/-- What one `subprocess.run` call does: complete with an exit code and
captured stdout/stderr, exceed its wall-clock timeout, or fail with some
other execution fault (whose message must not leak into outcomes). -/
inductive SpawnOutcome where
  | completed (returncode : Int) (stdout stderr : List Char)
  | timedOut
  | failed (msg : List Char)
deriving DecidableEq

/-- An external action script as the world sees it: whether the script file
exists, and what happens when it is spawned. -/
structure ActionSpec where
  present : Bool
  spawn : SpawnOutcome
deriving DecidableEq

/-- The persisted chain-state record (`.claude/pokayokay-chain-state.json`),
typed with the fields the bridge reads via `.get` with defaults; the
defaults below are exactly those `get` defaults, so the empty record also
models the absent/corrupt-file fallback `{}`.  (Unknown coordinator fields,
which the bridge preserves by mutating the loaded dict, are not modelled.) -/
structure ChainState where
  chain_id : List Char := []
  chain_index : Int := 0
  scope_type : List Char := []
  scope_id : List Char := []
  tasks_completed : Int := 0
  audit_passed : Bool := false
  audit_pending : Bool := false
deriving DecidableEq

/-- One per-category record of the review-failure tracking store
(bridge.py line 1026): the `setdefault` default plus the fields the loop
assigns. -/
structure CatData where
  count : Int := 0
  last_context : List Char := []
  last_task : List Char := []
  last_seen : List Char := []
  written : Bool := false
deriving DecidableEq

/-- One record of the token-usage ledger (bridge.py lines 408-415). -/
structure AgentRec where
  agent_type : PyJson
  description : PyJson
  total_tokens : Int
  tool_uses : Int
  duration_ms : Int
deriving DecidableEq

/-- The token-usage ledger (`.claude/pokayokay-token-usage.json`). -/
structure TokenUsage where
  agents : List AgentRec := []
  total_tokens : Int := 0
  total_agents : Int := 0
deriving DecidableEq

/-- Observable interactions of one invocation, in order.  Memory-document
writes record the call and its arguments; the markdown file contents are
outside the model. -/
inductive Effect where
  | ranAction (name : List Char)
  | spawned (name : List Char) (args : List (List Char))
      (env : List (List Char × List Char))
  | ranPathAction (name : List Char)
  | spawnedPath (path : List Char) (env : List (List Char × List Char))
  | npxRun (args : List (List Char))
  | stderrLine (msg : List Char)
  | wroteRecurringFailure (category : List Char) (count : Int) (context : List Char)
  | wroteChainLearnings (chain_id : List Char) (chain_index : Int)
      (tasks_completed : Int)
  | wroteSpikeResult (task_id task_title : PyJson) (result : List Char)
  | savedChainState (state : ChainState)
  | deletedChainState
  | savedFailureTracking
  | savedTokenUsage
  | resetTokenUsage
deriving DecidableEq

/-- The process/world context of one invocation: `os.environ`, the clock,
the scripts and external commands, `json.loads`, and the config file.
`jsonLoads` models `json.loads` on action output: `.error` is a
`JSONDecodeError`. -/
structure World where
  environ : List (List Char × List Char)
  cwd : List Char
  now : Int
  dateStr : List Char
  dateTimeStr : List Char
  isoTimeStr : List Char
  actions : List Char → ActionSpec
  pathActions : List Char → ActionSpec
  npx : List (List Char) → SpawnOutcome
  jsonLoads : List Char → Except Unit PyJson
  configFile : Option PyJson
  homeMemoryExists : Bool

/-- The mutable state threaded through one invocation: module globals
(rate-limiter windows, WIP tracking), the persisted JSON stores, and the
effect trace. -/
structure St where
  hookExecutions : List (List Char × List Int) := []
  trackedFiles : List PyJson := []
  lastWipUpdate : Int := 0
  chainFile : Option ChainState := none
  failureFile : Option (List (List Char × CatData)) := none
  tokenFile : Option TokenUsage := none
  effects : List Effect := []
deriving DecidableEq

/-- Append one effect to the trace. -/
def addEffect (s : St) (e : Effect) : St :=
  { s with effects := s.effects ++ [e] }

/-- `os.environ.get(k, d)`. -/
def envGetD (w : World) (k d : List Char) : List Char :=
  match w.environ.find? (fun kv => kv.1 = k) with
  | some kv => kv.2
  | none => d

/-- `os.environ.get(k)`. -/
def envGetOpt (w : World) (k : List Char) : Option (List Char) :=
  (w.environ.find? (fun kv => kv.1 = k)).map (fun kv => kv.2)

/-- `os.environ.get("CLAUDE_PROJECT_DIR", os.getcwd())` (used throughout). -/
def projectDir (w : World) : List Char :=
  envGetD w (cl "CLAUDE_PROJECT_DIR") w.cwd

/-- Set one key of a string-to-string environment dict. -/
def envSet (e : List (List Char × List Char)) (k v : List Char) :
    List (List Char × List Char) :=
  if (e.find? (fun kv => kv.1 = k)).isSome then
    e.map (fun kv => if kv.1 = k then (k, v) else kv)
  else e ++ [(k, v)]

/-- `base.update(overrides)` on environment dicts. -/
def envUpdate (base : List (List Char × List Char))
    (overrides : List (List Char × List Char)) : List (List Char × List Char) :=
  overrides.foldl (fun acc kv => envSet acc kv.1 kv.2) base

/-- The `_hook_executions[name]` defaultdict lookup. -/
def lookupExecs (m : List (List Char × List Int)) (name : List Char) : List Int :=
  match m.find? (fun kv => kv.1 = name) with
  | some kv => kv.2
  | none => []

/-- Store back a per-hook timestamp list. -/
def setExecs (m : List (List Char × List Int)) (name : List Char) (l : List Int) :
    List (List Char × List Int) :=
  if (m.find? (fun kv => kv.1 = name)).isSome then
    m.map (fun kv => if kv.1 = name then (name, l) else kv)
  else m ++ [(name, l)]

/-
============================================================================
Action runner (bridge.py lines 141-187 and 1137-1178)
============================================================================
-/

/-- The common result-dict shapes of the action runner. -/
def skippedOutcome (name : List Char) : PyJson :=
  .obj [(cl "action", .str name), (cl "status", .str (cl "skipped")),
        (cl "reason", .str (cl "script not found"))]

/-- Rate-limited outcome dict (line 151). -/
def rateLimitedOutcome (name msg : List Char) : PyJson :=
  .obj [(cl "action", .str name), (cl "status", .str (cl "rate_limited")),
        (cl "reason", .str msg)]

/-- Blocked outcome dict (line 164). -/
def blockedOutcome (name : List Char) (e : DangerousErr) : PyJson :=
  .obj [(cl "action", .str name), (cl "status", .str (cl "blocked")),
        (cl "reason", .str (dangerousMsg e))]

/-- Completed-process outcome dict (lines 178-183): exit 0 is success, any
other exit code is warning; stdout is stripped; empty stderr becomes None. -/
def completedOutcome (name : List Char) (returncode : Int) (stdout stderr : List Char) :
    PyJson :=
  .obj [(cl "action", .str name),
        (cl "status", .str (if returncode = 0 then cl "success" else cl "warning")),
        (cl "output", .str (stripWS stdout)),
        (cl "error", if stderr.isEmpty then .null else .str (stripWS stderr))]

/-- Timeout outcome dict (line 185). -/
def timeoutOutcome (name : List Char) (timeout : Nat) : PyJson :=
  .obj [(cl "action", .str name), (cl "status", .str (cl "timeout")),
        (cl "reason", .str (cl "exceeded " ++ natChars timeout ++ cl "s"))]

/-- Generic error outcome dict (line 187): the exception text is not
leaked. -/
def errorOutcome (name : List Char) : PyJson :=
  .obj [(cl "action", .str name), (cl "status", .str (cl "error")),
        (cl "reason", .str (cl "Script execution failed"))]

/-- `run_action` (bridge.py lines 141-187): resolve the script, consult the
rate limiter, sanitize the env overrides (rejecting the whole set on any
dangerous value), then spawn with the merged environment and map the
process result to an outcome.  Total: every Python exception path is a
returned outcome. -/
def run_action (w : World) (name : List Char) (args : List (List Char))
    (env : List (List Char × PyJson)) (s : St) : PyJson × St :=
  let s := addEffect s (.ranAction name)
  let spec := w.actions name
  if spec.present = false then (skippedOutcome name, s)
  else
    let (rlErr, execs) := check_rate_limit name (lookupExecs s.hookExecutions name) w.now
    let s := { s with hookExecutions := setExecs s.hookExecutions name execs }
    match rlErr with
    | some msg => (rateLimitedOutcome name msg, s)
    | none =>
        let timeout := get_timeout name
        match sanitizeEnvAll env with
        | .error e => (blockedOutcome name e, s)
        | .ok senv =>
            let run_env := envUpdate w.environ senv
            let s := addEffect s (.spawned name args run_env)
            match spec.spawn with
            | .completed rc out err => (completedOutcome name rc out err, s)
            | .timedOut => (timeoutOutcome name timeout, s)
            | .failed _ => (errorOutcome name, s)

/-- `Path(p).stem`: the final path component minus its last suffix. -/
def pathStem (p : List Char) : List Char :=
  let base := p.foldl (fun acc c => if c = '/' then [] else acc ++ [c]) []
  match (base.reverse.dropWhile (fun c => c ≠ '.')) with
  | [] => base
  | _ :: rest => rest.reverse

/-- `run_action_at_path` (bridge.py lines 1137-1178).  Unlike `run_action`
it applies `env` to the process environment without sanitization.  When an
override value is not a string, `subprocess.run` raises (caught by the
generic handler, yielding the error outcome) and no process is spawned. -/
def run_action_at_path (w : World) (script_path : List Char)
    (env : List (List Char × PyJson)) (s : St) : PyJson × St :=
  let name := pathStem script_path
  let s := addEffect s (.ranPathAction name)
  let spec := w.pathActions script_path
  if spec.present = false then (skippedOutcome name, s)
  else
    let (rlErr, execs) := check_rate_limit name (lookupExecs s.hookExecutions name) w.now
    let s := { s with hookExecutions := setExecs s.hookExecutions name execs }
    match rlErr with
    | some msg => (rateLimitedOutcome name msg, s)
    | none =>
        let timeout := get_timeout name
        if env.all (fun kv => match kv.2 with | .str _ => true | _ => false) then
          let strEnv := env.filterMap
            (fun kv => match kv.2 with | .str v => some (kv.1, v) | _ => none)
          let run_env := envUpdate w.environ strEnv
          let s := addEffect s (.spawnedPath script_path run_env)
          match spec.spawn with
          | .completed rc out err => (completedOutcome name rc out err, s)
          | .timedOut => (timeoutOutcome name timeout, s)
          | .failed _ => (errorOutcome name, s)
        else (errorOutcome name, s)

/-
============================================================================
Chain state, token usage and config files (bridge.py lines 262-418)
============================================================================
-/

/-- `load_pokayokay_config` (lines 262-274): the parsed config file, or `{}`
when absent/corrupt. -/
def load_pokayokay_config (w : World) : PyJson :=
  match w.configFile with
  | some j => j
  | none => .obj []

/-- `load_chain_state` (lines 290-305): absence (or corruption, folded into
absence here) yields the all-defaults record standing for `{}`. -/
def loadChainState (s : St) : ChainState :=
  match s.chainFile with
  | some st => st
  | none => {}

/-- `save_chain_state` (lines 308-325): atomic replace, I/O errors
swallowed (modelled as success). -/
def saveChainState (s : St) (state : ChainState) : St :=
  { s with chainFile := some state,
           effects := s.effects ++ [.savedChainState state] }

/-- `delete_chain_state` (lines 328-335). -/
def deleteChainState (s : St) : St :=
  { s with chainFile := none, effects := s.effects ++ [.deletedChainState] }

/-- `load_token_usage` (lines 351-360). -/
def loadTokenUsage (s : St) : TokenUsage :=
  match s.tokenFile with
  | some u => u
  | none => {}

/-- `save_token_usage` (lines 363-371). -/
def saveTokenUsage (s : St) (u : TokenUsage) : St :=
  { s with tokenFile := some u, effects := s.effects ++ [.savedTokenUsage] }

/-- `reset_token_usage` (lines 374-381). -/
def resetTokenUsage (s : St) : St :=
  { s with tokenFile := none, effects := s.effects ++ [.resetTokenUsage] }

/-- Helper for `scanTokenPattern`: match `lit` as a prefix, then the
character class, then digits, at the head of the input. -/
def matchAfterLit (lit : List Char) (s : List Char) : Option Nat :=
  if lit.isPrefixOf s then
    let afterLit := s.drop lit.length
    let afterClass := afterLit.dropWhile (fun c => c = '"' || c = ':' || isPySpace c)
    if afterClass.length < afterLit.length then
      let digits := afterClass.takeWhile Char.isDigit
      if digits.isEmpty then none
      else some (digits.foldl (fun acc c => acc * 10 + (c.toNat - 48)) 0)
    else none
  else none

/-- Scanner for the three extraction regexes of `record_agent_tokens`
(lines 398-406), pattern `LIT["\s:]+(\d+)`: at each position match the
literal, then one or more characters from the class `"`/`:`/whitespace,
then capture a digit run. -/
def scanTokenPattern (lit : List Char) : List Char → Option Nat
  | [] => none
  | c :: rest =>
      match matchAfterLit lit (c :: rest) with
      | some n => some n
      | none => scanTokenPattern lit rest

/-- `record_agent_tokens` (bridge.py lines 384-418): extract token figures
from the textual tool response and append a ledger record. -/
def record_agent_tokens (agent_type description : PyJson) (tool_response : PyJson)
    (s : St) : Except PyError St := do
  let resultv ← pyGetE tool_response (cl "result") (.str [])
  let result_text := pyStr resultv
  let (total_tokens, tool_uses, duration_ms) :=
    if pyIn (cl "total_tokens") result_text then
      ((scanTokenPattern (cl "total_tokens") result_text).getD 0,
       (scanTokenPattern (cl "tool_uses") result_text).getD 0,
       (scanTokenPattern (cl "duration_ms") result_text).getD 0)
    else (0, 0, 0)
  let descSliced ← pySliceE description 80
  let usage := loadTokenUsage s
  let agents := usage.agents ++
    [{ agent_type := agent_type, description := descSliced,
       total_tokens := Int.ofNat total_tokens, tool_uses := Int.ofNat tool_uses,
       duration_ms := Int.ofNat duration_ms }]
  let usage := { agents := agents,
                 total_tokens := (agents.map (fun a => a.total_tokens)).sum,
                 total_agents := Int.ofNat agents.length : TokenUsage }
  .ok (saveTokenUsage s usage)

/-
============================================================================
Memory-document writers (bridge.py lines 421-518, 922-995)
============================================================================
-/

/-- `_write_chain_learnings` (lines 421-475), recorded as an effect; the
markdown content and its 100-entry rotation live outside the model. -/
def writeChainLearnings (chain_state : ChainState) (tasks_completed_count : Int)
    (s : St) : St :=
  addEffect s (.wroteChainLearnings chain_state.chain_id chain_state.chain_index
    tasks_completed_count)

/-- `_write_spike_result` (lines 478-518): classify the GO/NO-GO result
from the task notes, then record the memory write as an effect.  Raises
`AttributeError` when the notes are a truthy non-string (line 491). -/
def writeSpikeResult (task_id task_title task_notes : PyJson) (s : St) :
    Except PyError St := do
  let notes_lower ← pyLowerE (pyOr task_notes (.str []))
  let result :=
    if pyIn (cl "no-go") notes_lower || pyIn (cl "no go") notes_lower then cl "NO-GO"
    else if pyIn (cl "pivot") notes_lower then cl "PIVOT"
    else if pyIn (cl "more-info") notes_lower || pyIn (cl "more info") notes_lower then
      cl "MORE-INFO"
    else cl "GO"
  .ok (addEffect s (.wroteSpikeResult task_id task_title result))

/-- `write_recurring_failure_to_memory` (lines 922-995), recorded as an
effect with its arguments; the document content, 50-entry rotation and
in-place count update live outside the model. -/
def write_recurring_failure_to_memory (category : List Char) (count : Int)
    (recent_context : List Char) (s : St) : St :=
  addEffect s (.wroteRecurringFailure category count recent_context)

/-
============================================================================
Failure pattern tracker (bridge.py lines 853-1044)
============================================================================
-/

/-- `REVIEW_FAILURE_THRESHOLD` (line 68). -/
def REVIEW_FAILURE_THRESHOLD : Int := 3

/-- `FAILURE_CATEGORIES` (lines 855-864). -/
def FAILURE_CATEGORIES : List (List Char × List (List Char)) :=
  [(cl "missing_error_handling",
    [cl "error handling", cl "error state", cl "try/catch", cl "catch block",
     cl "unhandled"]),
   (cl "missing_tests",
    [cl "no test", cl "missing test", cl "test coverage", cl "untested"]),
   (cl "scope_creep",
    [cl "scope creep", cl "unrequested", cl "extra work", cl "not in spec"]),
   (cl "missing_validation",
    [cl "validation", cl "input validation", cl "sanitiz"]),
   (cl "missing_auth",
    [cl "auth", cl "permission", cl "access control", cl "rate limit"]),
   (cl "missing_edge_cases",
    [cl "edge case", cl "boundary", cl "null", cl "empty", cl "undefined"]),
   (cl "naming_conventions",
    [cl "naming", cl "convention", cl "inconsistent name"]),
   (cl "missing_types",
    [cl "type", cl "typing", cl "type safety", cl "any type"])]

/-- `CATEGORY_PATH_SCOPES` (lines 867-876). -/
def CATEGORY_PATH_SCOPES : List (List Char × List Char) :=
  [(cl "missing_error_handling", []), (cl "missing_tests", []),
   (cl "scope_creep", []), (cl "missing_validation", []),
   (cl "missing_auth", cl "src/**/*.\x7bts,py\x7d"),
   (cl "missing_edge_cases", []), (cl "naming_conventions", []),
   (cl "missing_types", cl "**/*.\x7bts,tsx\x7d")]

/-- `categorize_failure` (lines 912-919). -/
def categorize_failure (failure_text : List Char) : List (List Char) :=
  let text_lower := lowerCL failure_text
  let matched := (FAILURE_CATEGORIES.filter
    (fun ck => ck.2.any (fun kw => pyIn kw text_lower))).map (fun ck => ck.1)
  if matched = [] then [cl "uncategorized"] else matched

/-- `load_failure_tracking` (lines 885-894): the `categories` mapping, with
absence/corruption yielding the empty mapping. -/
def loadFailureTracking (s : St) : List (List Char × CatData) :=
  match s.failureFile with
  | some m => m
  | none => []

/-- `save_failure_tracking` (lines 897-909). -/
def saveFailureTracking (s : St) (m : List (List Char × CatData)) : St :=
  { s with failureFile := some m, effects := s.effects ++ [.savedFailureTracking] }

/-- `tracking["categories"].setdefault(category, ...)` (line 1026). -/
def catLookup (m : List (List Char × CatData)) (category : List Char) : CatData :=
  match m.find? (fun kv => kv.1 = category) with
  | some kv => kv.2
  | none => {}

/-- Store back one category record (insertion order preserved). -/
def catSet (m : List (List Char × CatData)) (category : List Char) (cd : CatData) :
    List (List Char × CatData) :=
  if (m.find? (fun kv => kv.1 = category)).isSome then
    m.map (fun kv => if kv.1 = category then (category, cd) else kv)
  else m ++ [(category, cd)]

/-- Python `title()` used by `_graduate_rule` (line 1000): capitalize the
first letter of each alphabetic run. -/
def titleCase (s : List Char) : List Char :=
  (s.foldl (fun acc c =>
    let prevAlpha := acc.2
    let c' := if c.isAlpha then (if prevAlpha then c.toLower else c.toUpper) else c
    (acc.1 ++ [c'], c.isAlpha)) (([] : List Char), false)).1

/-- `_graduate_rule` (bridge.py lines 998-1012): build the scoped-pattern
environment and invoke the `graduate-rules` action. -/
def graduate_rule (category context : List Char) (count : Int) (w : World) (s : St) :
    St :=
  let display_name := titleCase (category.map (fun c => if c = '_' then ' ' else c))
  let description := cl "Review failures for " ++ lowerCL display_name ++ cl ": " ++
    context.take 150
  let affected_paths :=
    match CATEGORY_PATH_SCOPES.find? (fun kv => kv.1 = category) with
    | some kv => kv.2
    | none => []
  let env := [(cl "CATEGORY", PyJson.str category),
              (cl "PATTERN_DESCRIPTION", PyJson.str description),
              (cl "AFFECTED_PATHS", PyJson.str affected_paths),
              (cl "FAILURE_COUNT", PyJson.str (intChars count))]
  (run_action w (cl "graduate-rules") [] env s).2

/-- The body of the per-category loop of `track_review_failure`
(bridge.py lines 1025-1041): bump the count, refresh the context fields,
then run the two threshold branches (first-crossing write+graduate with
latch set, and the written-and-multiple-of-threshold re-fire). -/
def trackOneCategory (failure_text task_id : List Char) (w : World)
    (acc : (List (List Char × CatData)) × List (List Char) × St)
    (category : List Char) : (List (List Char × CatData)) × List (List Char) × St :=
  let (tracking, newly_recorded, s) := acc
  let cd := catLookup tracking category
  let cd := { cd with count := cd.count + 1,
                      last_context := failure_text.take 300,
                      last_task := task_id,
                      last_seen := w.isoTimeStr }
  let (cd, newly_recorded, s) :=
    if REVIEW_FAILURE_THRESHOLD ≤ cd.count ∧ ¬cd.written then
      let s := write_recurring_failure_to_memory category cd.count cd.last_context s
      let s := graduate_rule category cd.last_context cd.count w s
      ({ cd with written := true }, newly_recorded ++ [category], s)
    else (cd, newly_recorded, s)
  let s :=
    if cd.written ∧ cd.count % REVIEW_FAILURE_THRESHOLD = 0 then
      let s := write_recurring_failure_to_memory category cd.count cd.last_context s
      graduate_rule category cd.last_context cd.count w s
    else s
  (catSet tracking category cd, newly_recorded, s)

/-- `track_review_failure` (bridge.py lines 1015-1044). -/
def track_review_failure (failure_text task_id : List Char) (w : World) (s : St) :
    List (List Char) × St :=
  let categories := categorize_failure failure_text
  let tracking := loadFailureTracking s
  let (tracking, newly_recorded, s) :=
    categories.foldl (trackOneCategory failure_text task_id w) (tracking, [], s)
  let s := saveFailureTracking s tracking
  (newly_recorded, s)

/-
============================================================================
Shared handler helpers
============================================================================
-/

/-- The `{"skip": True, "reason": ...}` no-op result dicts. -/
def skipObj (reason : List Char) : PyJson :=
  .obj [(cl "skip", .bool true), (cl "reason", .str reason)]

/-- `sum(1 for r in results if r["status"] == v)` (used by every handler
summary). -/
def countStatus (results : List PyJson) (v : List Char) : Except PyError Nat :=
  match results with
  | [] => .ok 0
  | r :: rest => do
      let st_ ← pyIndexE r (cl "status")
      let n ← countStatus rest v
      .ok ((if st_ = .str v then 1 else 0) + n)

/-- The `"{n} passed, {m} warnings"` summary string. -/
def summaryStr (success_count warning_count : Nat) : List Char :=
  natChars success_count ++ cl " passed, " ++ natChars warning_count ++ cl " warnings"

/-- The metacharacter substitution of `handle_review_complete` lines
1083-1084: replace each shell metacharacter with a space (fail-open, unlike
the sanitizer). -/
def replaceMeta (s : List Char) : List Char :=
  s.map (fun c => if isMetaChar c then ' ' else c)

/-- Split a char list at a separator character (Python `str.split(sep)`). -/
def splitOnChar (sep : Char) (s : List Char) : List (List Char) :=
  s.foldr (fun c acc =>
    match acc with
    | [] => if c = sep then [[], []] else [[c]]
    | hd :: tl => if c = sep then [] :: hd :: tl else (c :: hd) :: tl) [[]]

/-
============================================================================
Review-completion handler (bridge.py lines 1047-1134)
============================================================================
-/

/-- The failure branch of `handle_review_complete` (bridge.py lines
1073-1134): feed the metachar-substituted excerpt to the failure tracker,
then run the project `post-review-fail.sh` hook and surface its parsed
kaizen decision. -/
def reviewFailurePath (is_spec_review : Bool) (agent_output : List Char)
    (w : World) (s : St) : Except PyError (PyJson × St) := do
      let failure_source :=
        if is_spec_review then cl "spec-review" else cl "quality-review"
      let task_id := envGetD w (cl "CURRENT_OHNO_TASK_ID") (cl "unknown")
      let failure_details := replaceMeta (agent_output.take 2000)
      let (newly_recorded, s) := track_review_failure failure_details task_id w s
      let hook_path := projectDir w ++ cl "/hooks/post-review-fail.sh"
      if (w.pathActions hook_path).present = false then
        .ok (.obj [(cl "hooks_run", .arr [.str (cl "post-review-fail")]),
                   (cl "review_type", .str failure_source),
                   (cl "task_id", .str task_id),
                   (cl "kaizen_action", .str (cl "LOGGED")),
                   (cl "results", .arr [.obj [(cl "action", .str (cl "post-review-fail")),
                     (cl "status", .str (cl "skipped")),
                     (cl "reason", .str (cl "hook not found"))]]),
                   (cl "summary",
                    .str (cl "Review failed, hook not found at " ++ hook_path))], s)
      else do
        let env := [(cl "TASK_ID", PyJson.str task_id),
                    (cl "FAILURE_DETAILS", PyJson.str failure_details),
                    (cl "FAILURE_SOURCE", PyJson.str failure_source)]
        let (result, s) := run_action_at_path w hook_path env s
        let hook_output ← pyGetE result (cl "output") (.str (cl "\x7b\x7d"))
        let action_data ← (match hook_output with
          | .str o =>
              match w.jsonLoads o with
              | .ok cd => pure cd
              | .error _ => pure (PyJson.obj [(cl "action", .str (cl "LOGGED")),
                  (cl "message", .str (cl "failed to parse hook output"))])
          | _ => Except.error PyError.typeError)
        let ka ← pyGetE action_data (cl "action") (.str (cl "LOGGED"))
        let ft ← pyGetE action_data (cl "fix_task") .null
        let km ← pyGetE action_data (cl "message") .null
        let respFields := [(cl "hooks_run", PyJson.arr [.str (cl "post-review-fail")]),
          (cl "review_type", PyJson.str failure_source),
          (cl "task_id", PyJson.str task_id),
          (cl "kaizen_action", ka),
          (cl "fix_task", ft),
          (cl "kaizen_message", km),
          (cl "results", PyJson.arr [result]),
          (cl "summary", PyJson.str (cl "Review failed, kaizen action: " ++ pyStr ka))]
        let respFields :=
          if newly_recorded.isEmpty then respFields
          else pyObjSet respFields (cl "recurring_failures_detected")
            (.arr (newly_recorded.map PyJson.str))
        .ok (.obj respFields, s)

/-- The PASS/FAIL marker test of `handle_review_complete` (lines
1064-1071): `": PASS"` anywhere is a no-op (checked first), a result
without `": FAIL"` is an undetermined no-op, anything else follows the
failure path. -/
def reviewMark (is_spec_review : Bool) (agent_output : List Char) (w : World)
    (s : St) : Except PyError (PyJson × St) :=
  if pyIn (cl ": PASS") agent_output then
    .ok (skipObj (cl "review passed"), s)
  else if ¬pyIn (cl ": FAIL") agent_output then
    .ok (skipObj (cl "could not determine review result"), s)
  else reviewFailurePath is_spec_review agent_output w s

/-- The extraction `str(tool_response.get("result", ""))` of
`handle_review_complete` line 1064, feeding `reviewMark`. -/
def reviewOutcome (is_spec_review : Bool) (tool_response : PyJson) (w : World)
    (s : St) : Except PyError (PyJson × St) := do
  let rv ← pyGetE tool_response (cl "result") (.str [])
  reviewMark is_spec_review (pyStr rv) w s

/-- `handle_review_complete` (bridge.py lines 1047-1134): detect review
agents (lines 1053-1061), then classify the agent result via
`reviewOutcome`/`reviewMark`/`reviewFailurePath`. -/
def handle_review_complete (tool_input tool_response : PyJson) (w : World) (s : St) :
    Except PyError (PyJson × St) := do
  let dv ← pyGetE tool_input (cl "description") (.str [])
  let description ← pyLowerE dv
  let subagent_type ← pyGetE tool_input (cl "subagent_type") (.str [])
  let c1 ← pyContainsE subagent_type (cl "spec-review")
  let is_spec_review := c1 || pyIn (cl "spec review") description
  let c2 ← pyContainsE subagent_type (cl "quality-review")
  let is_quality_review := c2 || pyIn (cl "quality review") description
  if ¬(is_spec_review || is_quality_review) then
    .ok (skipObj (cl "not a review task"), s)
  else
    reviewOutcome is_spec_review tool_response w s

/-
============================================================================
Session handlers (bridge.py lines 190-259 and 521-595)
============================================================================
-/

/-- The list comprehension of `_detect_stale_session` line 214:
`[t.get("id", "") for t in tasks if t.get("id")]`. -/
def collectTaskIds : List PyJson → Except PyError (List PyJson)
  | [] => .ok []
  | t :: rest => do
      let cond ← pyGetE t (cl "id") .null
      if pyTruthy cond then do
        let v ← pyGetE t (cl "id") (.str [])
        let r ← collectTaskIds rest
        .ok (v :: r)
      else collectTaskIds rest

/-- `_detect_stale_session` (bridge.py lines 190-223): consult the chain
state, then query the external task store; every exception inside the query
is swallowed (line 220), yielding no stale-session signal. -/
def detectStaleSession (w : World) (s : St) :
    Option (List PyJson × List Char) × St :=
  let chain_state := loadChainState s
  if chain_state.chain_id.isEmpty then (none, s)
  else
    let args := [cl "list", cl "--status", cl "in_progress", cl "--format", cl "json"]
    let s := addEffect s (.npxRun args)
    match w.npx args with
    | .completed rc out _ =>
        if rc = 0 ∧ ¬(stripWS out).isEmpty then
          match w.jsonLoads out with
          | .ok (.arr tasks) =>
              if ¬tasks.isEmpty then
                match collectTaskIds tasks with
                | .ok task_ids =>
                    if ¬task_ids.isEmpty then (some (task_ids, chain_state.chain_id), s)
                    else (none, s)
                | .error _ => (none, s)
              else (none, s)
          | _ => (none, s)
        else (none, s)
    | _ => (none, s)

/-- `handle_session_start` (bridge.py lines 226-259). -/
def handle_session_start (_input_data : PyJson) (w : World) (s : St) :
    Except PyError (PyJson × St) := do
  let s := resetTokenUsage s
  let (r1, s) := run_action w (cl "verify-clean") [] [] s
  let results := [r1]
  let work_mode := envGetD w (cl "YOKAY_WORK_MODE") []
  let (results, s) :=
    if work_mode = cl "unattended" then
      let (r2, s) := run_action w (cl "pre-flight") [] [(cl "WORK_MODE", .str work_mode)] s
      (results ++ [r2], s)
    else (results, s)
  let (stale, s) := detectStaleSession w s
  let (results, s) ← (match stale with
    | some (task_ids, chain_id) => do
        let joined ← pyJoinE (cl ",") task_ids
        let recovery_env := [(cl "STALE_TASKS", PyJson.str joined),
                             (cl "CHAIN_ID", PyJson.str chain_id)]
        let (r3, s) := run_action w (cl "recover") [] recovery_env s
        pure (results ++ [r3], s)
    | none => pure (results, s))
  let success_count ← countStatus results (cl "success")
  let warning_count ← countStatus results (cl "warning")
  .ok (.obj [(cl "hooks_run", .arr [.str (cl "pre-session")]),
             (cl "results", .arr results),
             (cl "summary", .str (summaryStr success_count warning_count))], s)

/-- The headless-config reads of `handle_session_end` lines 540-552:
`config.get("headless", {})` and the `max_chains` / `report` / `notify`
values with their defaults. -/
def loadHeadless (w : World) : Except PyError (PyJson × PyJson × PyJson) := do
  let config := load_pokayokay_config w
  let headless ← pyGetE config (cl "headless") (.obj [])
  let mc ← pyGetE headless (cl "max_chains") (.num 10)
  let rep ← pyGetE headless (cl "report") (.str (cl "on_complete"))
  let notif ← pyGetE headless (cl "notify") (.str (cl "terminal"))
  .ok (mc, rep, notif)

/-- The `chain_env` dict of `handle_session_end` lines 543-553. -/
def buildChainEnv (chain_state : ChainState) (hv : PyJson × PyJson × PyJson) :
    List (List Char × PyJson) :=
  [(cl "CHAIN_ID", PyJson.str chain_state.chain_id),
   (cl "CHAIN_INDEX", PyJson.str (intChars chain_state.chain_index)),
   (cl "MAX_CHAINS", PyJson.str (pyStr hv.1)),
   (cl "SCOPE_TYPE", PyJson.str chain_state.scope_type),
   (cl "SCOPE_ID", PyJson.str chain_state.scope_id),
   (cl "TASKS_COMPLETED", PyJson.str (intChars chain_state.tasks_completed)),
   (cl "CHAIN_AUDITED", PyJson.str (lowerCL (pyStr (PyJson.bool chain_state.audit_passed)))),
   (cl "REPORT_MODE", hv.2.1),
   (cl "NOTIFY_MODE", hv.2.2)]

/-- The chain-decision parse of `handle_session_end` lines 558-576: when
the chain action produced output, decode it (`JSONDecodeError` is
swallowed) and apply the `continue` / `audit_pending` / `complete` /
`limit_reached` transition to the persisted chain state. -/
def applyChainDecision (w : World) (chain_result : PyJson) (chain_state : ChainState)
    (s : St) : Except PyError St := do
  if ¬pyTruthy chain_result then .ok s
  else do
    let out ← pyGetE chain_result (cl "output") .null
    if ¬pyTruthy out then .ok s
    else
      match out with
      | .str o =>
          match w.jsonLoads o with
          | .error _ => .ok s
          | .ok chain_data => do
              let act ← pyGetE chain_data (cl "action") (.str [])
              if act = .str (cl "continue") then
                .ok (saveChainState s
                  { chain_state with chain_index := chain_state.chain_index + 1 })
              else if act = .str (cl "audit_pending") then
                .ok (saveChainState s { chain_state with audit_pending := true })
              else if act = .str (cl "complete") ∨ act = .str (cl "limit_reached") then
                .ok (deleteChainState s)
              else .ok s
      | _ => .error .typeError

/-- The response assembly of `handle_session_end` lines 578-595, including
the second decode of the chain output into `response["chain"]`. -/
def sessionEndResponse (w : World) (results : List PyJson)
    (chain_result : Option PyJson) (s : St) : Except PyError (PyJson × St) := do
  let success_count ← countStatus results (cl "success")
  let warning_count ← countStatus results (cl "warning")
  let response := [(cl "hooks_run", PyJson.arr [.str (cl "post-session")]),
                   (cl "results", PyJson.arr results),
                   (cl "summary", PyJson.str (summaryStr success_count warning_count))]
  match chain_result with
  | none => .ok (.obj response, s)
  | some cr =>
      if ¬pyTruthy cr then .ok (.obj response, s)
      else do
        let out ← pyGetE cr (cl "output") .null
        if ¬pyTruthy out then .ok (.obj response, s)
        else
          match out with
          | .str o =>
              match w.jsonLoads o with
              | .error _ => .ok (.obj response, s)
              | .ok chain_data => .ok (.obj (pyObjSet response (cl "chain") chain_data), s)
          | _ => .error .typeError

/-- `handle_session_end` (bridge.py lines 521-595). -/
def handle_session_end (_input_data : PyJson) (w : World) (s : St) :
    Except PyError (PyJson × St) := do
  let (r1, s) := run_action w (cl "sync") [] [] s
  let (r2, s) := run_action w (cl "session-summary") [] [] s
  let chain_state := loadChainState s
  if chain_state.chain_id.isEmpty then
    sessionEndResponse w [r1, r2] none s
  else do
    let s := writeChainLearnings chain_state chain_state.tasks_completed s
    let hv ← loadHeadless w
    let chain_env := buildChainEnv chain_state hv
    let (chain_result, s) := run_action w (cl "session-chain") [] chain_env s
    let s ← applyChainDecision w chain_result chain_state s
    sessionEndResponse w [r1, r2, chain_result] (some chain_result) s

/-
============================================================================
Task handlers (bridge.py lines 598-799)
============================================================================
-/

/-- `next((r for r in results if r["action"] == name), None)` (line 628). -/
def findAction (name : List Char) : List PyJson → Except PyError (Option PyJson)
  | [] => .ok none
  | r :: rest => do
      let a ← pyIndexE r (cl "action")
      if a = .str name then .ok (some r) else findAction name rest

/-- The `KEY=value` parse of `handle_task_start` lines 630-633. -/
def parseWorktreeLines (out : List Char) : List (List Char × PyJson) :=
  ((splitOnChar '\n' out).filter (fun line => line.contains '=')).foldl
    (fun acc line =>
      let key := line.takeWhile (fun c => c ≠ '=')
      let value := (line.dropWhile (fun c => c ≠ '=')).drop 1
      pyObjSet acc (stripWS key) (.str (stripWS value))) []

/-- `handle_task_start` (bridge.py lines 598-644). -/
def handle_task_start (tool_input tool_response : PyJson) (w : World) (s : St) :
    Except PyError (PyJson × St) := do
  let task_id ← pyGetE tool_input (cl "task_id") (.str (cl "unknown"))
  let task_data ← pyGetE tool_response (cl "task") (.obj [])
  let titleD ← pyGetE tool_input (cl "title") (.str [])
  let task_title ← pyGetE task_data (cl "title") titleD
  let typeD ← pyGetE tool_input (cl "type") (.str (cl "feature"))
  let typeD2 ← pyGetE task_data (cl "type") typeD
  let task_type ← pyGetE task_data (cl "task_type") typeD2
  let story_id ← pyGetE task_data (cl "story_id") (.str [])
  let force_worktree := envGetD w (cl "YOKAY_FORCE_WORKTREE") (cl "false")
  let force_inplace := envGetD w (cl "YOKAY_FORCE_INPLACE") (cl "false")
  let env := [(cl "TASK_ID", task_id), (cl "TASK_TITLE", task_title),
              (cl "TASK_TYPE", task_type), (cl "STORY_ID", story_id),
              (cl "FORCE_WORKTREE", PyJson.str force_worktree),
              (cl "FORCE_INPLACE", PyJson.str force_inplace)]
  let (r1, s) := run_action w (cl "check-blockers") [] env s
  let (r2, s) := run_action w (cl "suggest-skills") [] env s
  let (r3, s) := run_action w (cl "setup-worktree") [] env s
  let results := [r1, r2, r3]
  let wres ← findAction (cl "setup-worktree") results
  let worktree_info ← (match wres with
    | some wr => do
        let st_ ← pyGetE wr (cl "status") .null
        let outv ← pyGetE wr (cl "output") .null
        if st_ = .str (cl "success") ∧ pyTruthy outv then
          match outv with
          | .str o => pure (parseWorktreeLines o)
          | _ => Except.error PyError.attributeError
        else pure []
    | none => pure [])
  let success_count ← countStatus results (cl "success")
  let warning_count ← countStatus results (cl "warning")
  .ok (.obj [(cl "hooks_run", .arr [.str (cl "pre-task")]),
             (cl "task_id", task_id),
             (cl "worktree", .obj worktree_info),
             (cl "results", .arr results),
             (cl "summary", .str (summaryStr success_count warning_count))], s)

/-- `handle_task_complete` (bridge.py lines 647-749): post-task actions,
spike capture, boundary-gated post-story and post-epic actions, memory
decay calls to the external task store, and the chain tasks-completed
increment. -/
def handle_task_complete (tool_input tool_response : PyJson) (w : World) (s : St) :
    Except PyError (PyJson × St) := do
  let task_id ← pyGetE tool_input (cl "task_id") (.str (cl "unknown"))
  let task_data ← pyGetE tool_response (cl "task") (.obj [])
  let titleD ← pyGetE tool_input (cl "title") (.str [])
  let task_title ← pyGetE task_data (cl "title") titleD
  let typeD ← pyGetE tool_input (cl "type") (.str [])
  let task_type ← pyGetE task_data (cl "type") typeD
  let task_notes ← pyGetE tool_input (cl "notes") (.str [])
  let boundaries ← pyGetE tool_response (cl "boundaries") (.obj [])
  let story_completed ← pyGetE boundaries (cl "story_completed") (.bool false)
  let epic_completed ← pyGetE boundaries (cl "epic_completed") (.bool false)
  let story_id ← pyGetE boundaries (cl "story_id") .null
  let epic_id ← pyGetE boundaries (cl "epic_id") .null
  let env := [(cl "TASK_ID", task_id), (cl "TASK_TITLE", task_title),
              (cl "TASK_TYPE", task_type), (cl "TASK_NOTES", task_notes),
              (cl "STORY_ID", pyOr story_id (.str [])),
              (cl "EPIC_ID", pyOr epic_id (.str [])),
              (cl "STORY_COMPLETED", PyJson.str (lowerCL (pyStr story_completed))),
              (cl "EPIC_COMPLETED", PyJson.str (lowerCL (pyStr epic_completed)))]
  let hooks_run := [cl "post-task"]
  let (r1, s) := run_action w (cl "sync") [] env s
  let (r2, s) := run_action w (cl "commit") [] env s
  let (r3, s) := run_action w (cl "detect-spike") [] env s
  let (r4, s) := run_action w (cl "capture-knowledge") [] env s
  let results := [r1, r2, r3, r4]
  let s ← (if task_type = .str (cl "spike") then
      writeSpikeResult task_id task_title task_notes s
    else pure s)
  let (hooks_run, results, s) ← (if pyTruthy story_completed then do
      let (t1, s) := run_action w (cl "test") [] env s
      let story_env := env ++ [(cl "BOUNDARY_TYPE", PyJson.str (cl "story"))]
      let (a1, s) := run_action w (cl "audit-gate") [] story_env s
      let s := if pyTruthy story_id then
          addEffect s (.npxRun [cl "compact-handoffs", pyStr story_id])
        else s
      pure (hooks_run ++ [cl "post-story"], results ++ [t1, a1], s)
    else pure (hooks_run, results, s))
  let (hooks_run, results, s) ← (if pyTruthy epic_completed then do
      let epic_env := env ++ [(cl "BOUNDARY_TYPE", PyJson.str (cl "epic"))]
      let (a2, s) := run_action w (cl "audit-gate") [] epic_env s
      let s := if pyTruthy epic_id then
          addEffect s (.npxRun [cl "delete-handoffs", pyStr epic_id])
        else s
      pure (hooks_run ++ [cl "post-epic"], results ++ [a2], s)
    else pure (hooks_run, results, s))
  let chain_state := loadChainState s
  let s := if ¬chain_state.chain_id.isEmpty then
      saveChainState s
        { chain_state with tasks_completed := chain_state.tasks_completed + 1 }
    else s
  let success_count ← countStatus results (cl "success")
  let warning_count ← countStatus results (cl "warning")
  .ok (.obj [(cl "hooks_run", .arr (hooks_run.map PyJson.str)),
             (cl "boundaries", .obj [(cl "story_completed", story_completed),
               (cl "epic_completed", epic_completed),
               (cl "story_id", story_id), (cl "epic_id", epic_id)]),
             (cl "results", .arr results),
             (cl "summary", .str (summaryStr success_count warning_count))], s)

/-- `handle_set_blocker` (bridge.py lines 752-770): a stderr diagnostic and
a static result; no external action is invoked. -/
def handle_set_blocker (tool_input _tool_response : PyJson) (s : St) :
    Except PyError (PyJson × St) := do
  let task_id ← pyGetE tool_input (cl "task_id") (.str (cl "unknown"))
  let reason ← pyGetE tool_input (cl "reason") (.str [])
  let s := addEffect s
    (.stderrLine (cl "🚧 Blocker on " ++ pyStr task_id ++ cl ": " ++ pyStr reason))
  .ok (.obj [(cl "hooks_run", .arr [.str (cl "on-blocker")]),
             (cl "task_id", task_id),
             (cl "blocker_reason", reason),
             (cl "suggestion",
              .str (cl "Consider working on a different task while this is blocked."))], s)

/-- `[r["action"] for r in results if r["status"] == "error"]` (line 791),
kept as decoded values for the `", ".join`. -/
def collectErrorActions : List PyJson → Except PyError (List PyJson)
  | [] => .ok []
  | r :: rest => do
      let st_ ← pyIndexE r (cl "status")
      if st_ = .str (cl "error") then do
        let a ← pyIndexE r (cl "action")
        let more ← collectErrorActions rest
        .ok (a :: more)
      else collectErrorActions rest

/-- `handle_pre_commit` (bridge.py lines 773-799): a no-op unless the shell
command stages or commits; otherwise run the lint/size gates and request a
block when any outcome has status error. -/
def handle_pre_commit (tool_input : PyJson) (w : World) (s : St) :
    Except PyError (PyJson × St) := do
  let command ← pyGetE tool_input (cl "command") (.str [])
  let hasCommit ← pyContainsE command (cl "git commit")
  let hasAdd ← pyContainsE command (cl "git add")
  if ¬hasCommit ∧ ¬hasAdd then
    .ok (skipObj (cl "not a commit command"), s)
  else do
    let (r1, s) := run_action w (cl "lint") [] [] s
    let (r2, s) := run_action w (cl "check-ref-sizes") [] [] s
    let results := [r1, r2]
    let failing ← collectErrorActions results
    let has_blocking_error := ¬failing.isEmpty
    let reason ← (if ¬failing.isEmpty then do
        let j ← pyJoinE (cl ", ") failing
        pure (PyJson.str (j ++ cl " failed"))
      else pure PyJson.null)
    .ok (.obj [(cl "hooks_run", .arr [.str (cl "pre-commit")]),
               (cl "results", .arr results),
               (cl "block", .bool has_blocking_error),
               (cl "reason", reason)], s)

/-- `AUDIT_COMMANDS` (bridge.py lines 803-809): skill name, task prefix,
and the optional required flag. -/
def AUDIT_COMMANDS : List (List Char × List Char × Option (List Char)) :=
  [(cl "pokayokay:security", cl "Security:", none),
   (cl "pokayokay:a11y", cl "A11y:", none),
   (cl "pokayokay:test", cl "Test:", some (cl "--audit")),
   (cl "pokayokay:observe", cl "Observability:", some (cl "--audit")),
   (cl "pokayokay:arch", cl "Arch:", some (cl "--audit"))]

/-- `handle_skill_complete` (bridge.py lines 812-846). -/
def handle_skill_complete (tool_input _tool_response : PyJson) (w : World) (s : St) :
    Except PyError (PyJson × St) := do
  let skill_name ← pyGetE tool_input (cl "skill") (.str [])
  let skill_args ← pyGetE tool_input (cl "args") (.str [])
  let config := (match skill_name with
    | .str sn => AUDIT_COMMANDS.find?
        (fun (kv : List Char × List Char × Option (List Char)) => kv.1 = sn)
    | _ => none)
  match config with
  | none =>
      .ok (skipObj (cl "skill " ++ pyStr skill_name ++ cl " has no post-command hooks"), s)
  | some (_, taskPref, requiredFlag) => do
      let flagAbsent ← (match requiredFlag with
        | some f => do
            let b ← pyContainsE skill_args f
            pure (!b)
        | none => pure false)
      if flagAbsent then
        .ok (skipObj (cl "skill " ++ pyStr skill_name ++ cl " requires " ++
          (requiredFlag.getD []) ++ cl " flag for task verification"), s)
      else do
        let env := [(cl "SKILL_NAME", skill_name), (cl "SKILL_ARGS", skill_args),
                    (cl "TASK_PREFIX", PyJson.str taskPref)]
        let (r1, s) := run_action w (cl "verify-tasks") [] env s
        let results := [r1]
        let success_count ← countStatus results (cl "success")
        let warning_count ← countStatus results (cl "warning")
        .ok (.obj [(cl "hooks_run", .arr [.str (cl "post-command")]),
                   (cl "skill", skill_name),
                   (cl "results", .arr results),
                   (cl "summary", .str (summaryStr success_count warning_count))], s)

/-
============================================================================
WIP auto-capture (bridge.py lines 1185-1355)
============================================================================
-/

/-- `WIP_UPDATE_INTERVAL` (line 65). -/
def WIP_UPDATE_INTERVAL : Int := 5

/-- `should_update_wip` (bridge.py lines 1185-1194): rate-limit WIP
updates; admission records the new `_last_wip_update` timestamp. -/
def should_update_wip (force : Bool) (now : Int) (s : St) : Bool × St :=
  if force then (true, s)
  else if now - s.lastWipUpdate < WIP_UPDATE_INTERVAL then (false, s)
  else (true, { s with lastWipUpdate := now })

/-- `[c.get("text", "") for c in content if isinstance(c, dict)]`
(line 1204). -/
def collectContentTexts : List PyJson → List PyJson
  | [] => []
  | c :: rest =>
      match c with
      | .obj cf => ((pyLookup cf (cl "text")).getD (.str [])) :: collectContentTexts rest
      | _ => collectContentTexts rest

/-- `extract_output_text` (bridge.py lines 1197-1209). -/
def extract_output_text (tool_response : PyJson) : Except PyError PyJson :=
  match tool_response with
  | .str s_ => .ok (.str s_)
  | .obj fs =>
      let content := (pyLookup fs (cl "content")).getD (.arr [])
      (match content with
       | .arr cs => do
           let joined ← pyJoinE (cl "\n") (collectContentTexts cs)
           .ok (.str joined)
       | .str cstr => .ok (.str cstr)
       | _ =>
           let outD := (pyLookup fs (cl "output")).getD (.str [])
           .ok ((pyLookup fs (cl "text")).getD outD))
  | _ => .ok (.str [])

/-- `extract_exit_code` (bridge.py lines 1212-1216); `None` is the decoded
null. -/
def extract_exit_code (tool_response : PyJson) : PyJson :=
  match tool_response with
  | .obj fs => (pyLookup fs (cl "exit_code")).getD ((pyLookup fs (cl "returncode")).getD .null)
  | _ => .null

/-- Short-circuit `any(p in container for p in ps)`. -/
def anyContainsE (container : PyJson) : List (List Char) → Except PyError Bool
  | [] => .ok false
  | p :: rest => do
      let b ← pyContainsE container p
      if b then .ok true else anyContainsE container rest

/-- `is_test_command` (bridge.py lines 1219-1222). -/
def is_test_command (command : PyJson) : Except PyError Bool :=
  anyContainsE command
    [cl "npm test", cl "npx vitest", cl "npx jest", cl "pytest", cl "cargo test",
     cl "go test", cl "npm run test"]

/-- `is_git_commit` (bridge.py lines 1225-1227). -/
def is_git_commit (command : PyJson) : Except PyError Bool :=
  pyContainsE command (cl "git commit")

/-- Character class `[\w/.-]` of the commit-hash regex. -/
def isWordPathChar (c : Char) : Bool :=
  c.isAlphanum || c = '_' || c = '/' || c = '.' || c = '-'

/-- Character class `[a-f0-9]` of the commit-hash regex. -/
def isHexLower (c : Char) : Bool := ('a' ≤ c && c ≤ 'f') || c.isDigit

/-- Try the commit-hash pattern `\[[\w/.-]+ ([a-f0-9]{7,})\]` anchored at
the head of the input. -/
def matchCommitAt (s : List Char) : Option (List Char) :=
  match s with
  | '[' :: rest =>
      let branch := rest.takeWhile isWordPathChar
      if branch.isEmpty then none
      else
        match rest.drop branch.length with
        | ' ' :: rest2 =>
            let hexs := rest2.takeWhile isHexLower
            if 7 ≤ hexs.length then
              match rest2.drop hexs.length with
              | ']' :: _ => some hexs
              | _ => none
            else none
        | _ => none
  | _ => none

/-- `extract_commit_hash` (bridge.py lines 1230-1235): leftmost match of
the git-commit output pattern. -/
def extract_commit_hash : List Char → Option (List Char)
  | [] => none
  | c :: rest =>
      match matchCommitAt (c :: rest) with
      | some h => some h
      | none => extract_commit_hash rest

/-- Try the pattern `(\d+)\s+(?:LIT1|LIT2)` anchored at the head of the
input, returning the captured count. -/
def matchCountAt (lits : List (List Char)) (s : List Char) : Option Nat :=
  let ds := s.takeWhile Char.isDigit
  if ds.isEmpty then none
  else
    let rest := s.drop ds.length
    let ws := rest.takeWhile isPySpace
    if ws.isEmpty then none
    else if lits.any (fun l => l.isPrefixOf (rest.drop ws.length)) then
      some (ds.foldl (fun acc c => acc * 10 + (c.toNat - 48)) 0)
    else none

/-- Leftmost match of `(\d+)\s+(?:LIT1|LIT2)` (the test-count regexes of
`parse_test_output`, lines 1248-1249). -/
def scanCount (lits : List (List Char)) : List Char → Option Nat
  | [] => none
  | c :: rest =>
      match matchCountAt lits (c :: rest) with
      | some n => some n
      | none => scanCount lits rest

/-- Try the failing-test pattern `(?:FAIL|✗|×)\s+(.+)` anchored at the head
of the input: a marker, a whitespace run, then the rest of the line.
(Regex backtracking across a newline-only whitespace run is not
modelled.) -/
def matchFailNameAt (s : List Char) : Option (List Char) :=
  let tryLit := fun (l : List Char) =>
    if l.isPrefixOf s then
      let rest := s.drop l.length
      let ws := rest.takeWhile isPySpace
      if ws.isEmpty then none
      else
        let name := (rest.drop ws.length).takeWhile (fun c => c ≠ '\n')
        if name.isEmpty then none else some name
    else none
  match tryLit (cl "FAIL") with
  | some n => some n
  | none =>
      match tryLit (cl "✗") with
      | some n => some n
      | none => tryLit (cl "×")

/-- Leftmost match of the failing-test pattern (line 1258). -/
def scanFailName : List Char → Option (List Char)
  | [] => none
  | c :: rest =>
      match matchFailNameAt (c :: rest) with
      | some n => some n
      | none => scanFailName rest

/-- `parse_test_output` (bridge.py lines 1238-1262) on a string output. -/
def parse_test_output (output : List Char) : PyJson :=
  let passed := scanCount [cl "passing", cl "passed"] output
  let failed := scanCount [cl "failing", cl "failed"] output
  let base := [(cl "ran", PyJson.bool true),
               (cl "passed", PyJson.num (Int.ofNat (passed.getD 0))),
               (cl "failed", PyJson.num (Int.ofNat (failed.getD 0)))]
  if 0 < failed.getD 0 then
    match scanFailName output with
    | some n => .obj (base ++ [(cl "failing_test", .str ((stripWS n).take 200))])
    | none => .obj base
  else .obj base

/-- `parse_test_output` applied to the extracted output value: `re.search`
on a non-string raises `TypeError`. -/
def parse_test_outputE (output : PyJson) : Except PyError PyJson :=
  match output with
  | .str o => .ok (parse_test_output o)
  | _ => .error .typeError

/-- `parse_error` (bridge.py lines 1265-1276). -/
def parse_error (command output : PyJson) : Except PyError (Option PyJson) := do
  let os_ ← (match output with
    | .str o => pure o
    | _ => Except.error PyError.attributeError)
  if (stripWS os_).isEmpty then .ok none
  else do
    let cmdSliced ← pySliceE command 200
    .ok (some (.obj [(cl "type", .str (cl "command_error")),
                     (cl "command", cmdSliced),
                     (cl "message", .str ((stripWS os_).take 500))]))

/-- `update_wip` (bridge.py lines 1279-1290): a best-effort external call,
recorded as an effect. -/
def update_wip (task_id : List Char) (wip_data : PyJson) (s : St) : St :=
  addEffect s (.npxRun [cl "update-wip", task_id, pyJsonDumps wip_data])

/-- Lexicographic comparison of strings, for `sorted`. -/
def lexLe : List Char → List Char → Bool
  | [], _ => true
  | _ :: _, [] => false
  | a :: as_, b :: bs => if a = b then lexLe as_ bs else decide (a < b)

/-- Insertion into a lexicographically sorted list. -/
def insertSortedStr (x : List Char) : List (List Char) → List (List Char)
  | [] => [x]
  | y :: rest => if lexLe x y then x :: y :: rest else y :: insertSortedStr x rest

/-- `sorted(...)` over the tracked-file set: every member must be a string
(a mixed-type set makes `sorted` raise `TypeError`). -/
def sortedStrsE : List PyJson → Except PyError (List (List Char))
  | [] => .ok []
  | f :: rest => do
      let r ← sortedStrsE rest
      match f with
      | .str fs_ => .ok (insertSortedStr fs_ r)
      | _ => .error .typeError

/-- `handle_file_change` (bridge.py lines 1293-1316). -/
def handle_file_change (_tool_name tool_input _tool_response : PyJson) (w : World)
    (s : St) : Except PyError (PyJson × St) := do
  let active := (match envGetOpt w (cl "CURRENT_OHNO_TASK_ID") with
    | none => none
    | some t => if t.isEmpty || t = cl "unknown" then none else some t)
  match active with
  | none => .ok (skipObj (cl "no active task"), s)
  | some task_id => do
      let file_path ← pyGetE tool_input (cl "file_path") (.str [])
      if ¬pyTruthy file_path then .ok (skipObj (cl "no file path"), s)
      else do
        let s ← (match file_path with
          | .arr _ => Except.error PyError.typeError
          | .obj _ => Except.error PyError.typeError
          | fp => pure (if s.trackedFiles.contains fp then s
              else { s with trackedFiles := s.trackedFiles ++ [fp] }))
        let (ok_, s) := should_update_wip false w.now s
        if ¬ok_ then .ok (skipObj (cl "rate limited"), s)
        else do
          let sortedFiles ← sortedStrsE s.trackedFiles
          let wip_data := PyJson.obj
            [(cl "files_modified", .arr (sortedFiles.map PyJson.str)),
             (cl "uncommitted_changes", .bool true)]
          let s := update_wip task_id wip_data s
          .ok (skipObj (cl "wip updated silently"), s)

/-- `handle_bash_execution` (bridge.py lines 1319-1355). -/
def handle_bash_execution (tool_input tool_response : PyJson) (w : World) (s : St) :
    Except PyError (PyJson × St) := do
  let active := (match envGetOpt w (cl "CURRENT_OHNO_TASK_ID") with
    | none => none
    | some t => if t.isEmpty || t = cl "unknown" then none else some t)
  match active with
  | none => .ok (skipObj (cl "no active task"), s)
  | some task_id => do
      let command ← pyGetE tool_input (cl "command") (.str [])
      let output ← extract_output_text tool_response
      let exit_code := extract_exit_code tool_response
      let isTest ← is_test_command command
      let wip1 ← (if isTest then do
          let tr ← parse_test_outputE output
          pure [(cl "test_results", tr)]
        else pure ([] : List (List Char × PyJson)))
      let isCommit ← is_git_commit command
      let (wip2, s, force_update) ← (if isCommit then do
          let os_ ← (match output with
            | .str o => pure o
            | _ => Except.error PyError.typeError)
          match extract_commit_hash os_ with
          | some h =>
              pure (wip1 ++ [(cl "last_commit", PyJson.str h),
                (cl "uncommitted_changes", PyJson.bool false)],
                { s with trackedFiles := [] }, true)
          | none => pure (wip1, s, false)
        else pure (wip1, s, false))
      let (wip3, s) ← (if pyTruthy exit_code ∧ exit_code ≠ .num 0 ∧ ¬isTest then do
          let errInfo ← parse_error command output
          match errInfo with
          | some e => pure (wip2 ++ [(cl "errors", PyJson.arr [e])], s)
          | none => pure (wip2, s)
        else pure (wip2, s))
      let (doUpd, s) := if ¬wip3.isEmpty then should_update_wip force_update w.now s
        else (false, s)
      let s := if doUpd then update_wip task_id (PyJson.obj wip3) s else s
      .ok (skipObj (cl "wip updated silently"), s)

/-
============================================================================
Output formatting and the dispatcher (bridge.py lines 1358-1574)
============================================================================
-/

/-- The status-icon lookup of `format_context` lines 1467-1475 (default
`"?"`). -/
def statusIcon (st_ : PyJson) : List Char :=
  if st_ = .str (cl "success") then cl "✓"
  else if st_ = .str (cl "warning") then cl "⚠️"
  else if st_ = .str (cl "error") then cl "❌"
  else if st_ = .str (cl "skipped") then cl "⏭️"
  else if st_ = .str (cl "blocked") then cl "🚫"
  else if st_ = .str (cl "rate_limited") then cl "⏳"
  else if st_ = .str (cl "timeout") then cl "⏰"
  else cl "?"

/-- `", ".join` over an arbitrary iterable value (lists, strings and dict
keys are iterable; everything else raises `TypeError`). -/
def pyJoinIter (sep : List Char) (v : PyJson) : Except PyError (List Char) :=
  match v with
  | .arr xs => pyJoinE sep xs
  | .str s_ => .ok (List.intercalate sep (s_.map (fun c => [c])))
  | .obj fs => pyJoinE sep (fs.map (fun kv => PyJson.str kv.1))
  | _ => .error .typeError

/-- The results-table rows of `format_context` lines 1466-1477. -/
def resultRows : List PyJson → Except PyError (List (List Char))
  | [] => .ok []
  | r :: rest => do
      let st_ ← pyIndexE r (cl "status")
      let icon := statusIcon st_
      let reasonD ← pyGetE r (cl "reason") (.str [])
      let outv ← pyGetE r (cl "output") reasonD
      let outSliced ← pySliceE outv 50
      let a ← pyIndexE r (cl "action")
      let rows ← resultRows rest
      .ok ((cl "| " ++ pyStr a ++ cl " | " ++ icon ++ cl " | " ++ pyStr outSliced ++
        cl " |") :: rows)

/-- The worktree section of `format_context` lines 1485-1505. -/
def worktreeLines (worktree : PyJson) : Except PyError (List (List Char)) := do
  let mode ← pyGetE worktree (cl "MODE") (.str [])
  if mode = .str (cl "worktree") then do
    let wc ← pyGetE worktree (cl "WORKTREE_CREATED") .null
    if wc = .str (cl "true") then do
      let wb ← pyGetE worktree (cl "WORKTREE_BRANCH") (.str (cl "unknown"))
      let wp ← pyGetE worktree (cl "WORKTREE_PATH") (.str (cl "unknown"))
      let bb ← pyGetE worktree (cl "BASE_BRANCH") (.str (cl "main"))
      let wpRaw ← pyGetE worktree (cl "WORKTREE_PATH") .null
      pure [cl "## Worktree Setup",
        cl "  ✓ Branch created: " ++ pyStr wb,
        cl "  ✓ Path: " ++ pyStr wp,
        cl "  ✓ Based on: " ++ pyStr bb, [],
        cl "**IMPORTANT**: Work in `" ++ pyStr wpRaw ++ cl "` for this task."]
    else do
      let wr ← pyGetE worktree (cl "WORKTREE_REUSED") .null
      if wr = .str (cl "true") then do
        let wp ← pyGetE worktree (cl "WORKTREE_PATH") (.str (cl "unknown"))
        let wpRaw ← pyGetE worktree (cl "WORKTREE_PATH") .null
        pure [cl "## Worktree Reused",
          cl "  ✓ Using existing worktree: " ++ pyStr wp, [],
          cl "**IMPORTANT**: Work in `" ++ pyStr wpRaw ++ cl "` for this task."]
      else pure []
  else if mode = .str (cl "in-place") then do
    let reason ← pyGetE worktree (cl "REASON") (.str (cl "smart default"))
    pure [cl "## Working In-Place",
      cl "  Working directly on current branch (" ++ pyStr reason ++ cl ")."]
  else pure []

/-- The chain section of `format_context` lines 1516-1538. -/
def chainLines (chain : PyJson) : Except PyError (List (List Char)) := do
  let chain_action ← pyGetE chain (cl "action") (.str [])
  if chain_action = .str (cl "continue") then do
    let cid ← pyGetE chain (cl "chain_id") (.str (cl "?"))
    let cidx ← pyGetE chain (cl "chain_index") (.str (cl "?"))
    let mx ← pyGetE chain (cl "max_chains") (.str (cl "?"))
    let tc ← pyGetE chain (cl "tasks_completed") (.num 0)
    let tr ← pyGetE chain (cl "tasks_remaining") (.num 0)
    let cc ← pyGetE chain (cl "continue_command") (.str [])
    pure [cl "## Session Chain: Continuing",
      cl "Chain " ++ pyStr cid ++ cl " session " ++ pyStr cidx ++ cl "/" ++ pyStr mx,
      cl "Tasks completed so far: " ++ pyStr tc,
      cl "Tasks remaining: " ++ pyStr tr,
      cl "Next: `" ++ pyStr cc ++ cl "`"]
  else if chain_action = .str (cl "complete") then do
    let tc ← pyGetE chain (cl "tasks_completed") (.num 0)
    let report ← pyGetE chain (cl "report_path") (.str [])
    let base := [cl "## Session Chain: Complete",
      cl "All tasks in scope completed! (" ++ pyStr tc ++ cl " total)"]
    pure (if pyTruthy report then base ++ [cl "Report: " ++ pyStr report] else base)
  else if chain_action = .str (cl "limit_reached") then do
    let mx ← pyGetE chain (cl "max_chains") (.num 10)
    let tc ← pyGetE chain (cl "tasks_completed") (.num 0)
    let tr ← pyGetE chain (cl "tasks_remaining") (.num 0)
    let report ← pyGetE chain (cl "report_path") (.str [])
    let base := [cl "## Session Chain: Limit Reached",
      cl "Max chains (" ++ pyStr mx ++ cl ") reached.",
      cl "Completed: " ++ pyStr tc ++ cl ", Remaining: " ++ pyStr tr]
    pure (if pyTruthy report then base ++ [cl "Report: " ++ pyStr report] else base)
  else pure []

/-- The kaizen section of `format_context` lines 1541-1572. -/
def kaizenLines (result kaizen_action : PyJson) : Except PyError (List (List Char)) := do
  let base := [[], cl "## Kaizen Review Failure Analysis",
    cl "**Action:** " ++ pyStr kaizen_action]
  if kaizen_action = .str (cl "AUTO") then do
    let fix_task ← pyGetE result (cl "fix_task") (.obj [])
    let t ← pyGetE fix_task (cl "title") (.str (cl "Unknown"))
    let ty ← pyGetE fix_task (cl "type") (.str (cl "bug"))
    let est ← pyGetE fix_task (cl "estimate") (.num 2)
    pure (base ++ [[], cl "**Auto-creating fix task:**",
      cl "- Title: " ++ pyStr t,
      cl "- Type: " ++ pyStr ty,
      cl "- Estimate: " ++ pyStr est ++ cl "h", [],
      cl "Create this task in ohno, block the current task, then continue with next task."])
  else if kaizen_action = .str (cl "SUGGEST") then do
    let fix_task ← pyGetE result (cl "fix_task") (.obj [])
    let t ← pyGetE fix_task (cl "title") (.str (cl "Unknown"))
    let ty ← pyGetE fix_task (cl "type") (.str (cl "bug"))
    let est ← pyGetE fix_task (cl "estimate") (.num 2)
    pure (base ++ [[], cl "**Suggested fix task (needs confirmation):**",
      cl "- Title: " ++ pyStr t,
      cl "- Type: " ++ pyStr ty,
      cl "- Estimate: " ++ pyStr est ++ cl "h", [],
      cl "Ask user: Create this fix task? (yes/no/customize)"])
  else if kaizen_action = .str (cl "LOGGED") then do
    let message ← pyGetE result (cl "kaizen_message") (.str [])
    let msgLines := if pyTruthy message then [cl "**Message:** " ++ pyStr message]
      else ([] : List (List Char))
    pure (base ++ msgLines ++ [[],
      cl "Failure logged. Continue with re-dispatch behavior (max 3 cycles)."])
  else pure base

/-- `format_context` (bridge.py lines 1444-1574): the markdown context
assembled from a handler result. -/
def format_context (result : PyJson) : Except PyError (List Char) := do
  let hooks_run ← pyGetE result (cl "hooks_run") (.arr [])
  let lines ← (if pyTruthy hooks_run then do
      let j ← pyJoinIter (cl ", ") hooks_run
      pure [cl "## Hooks executed: " ++ j, ([] : List Char)]
    else pure ([] : List (List Char)))
  let boundaries ← pyGetE result (cl "boundaries") (.obj [])
  let sc ← pyGetE boundaries (cl "story_completed") .null
  let lines ← (if pyTruthy sc then do
      let sid ← pyGetE boundaries (cl "story_id") (.str (cl "unknown"))
      pure (lines ++ [cl "✅ Story " ++ pyStr sid ++ cl " completed!"])
    else pure lines)
  let ec ← pyGetE boundaries (cl "epic_completed") .null
  let lines ← (if pyTruthy ec then do
      let eid ← pyGetE boundaries (cl "epic_id") (.str (cl "unknown"))
      pure (lines ++ [cl "🎉 Epic " ++ pyStr eid ++ cl " completed!"])
    else pure lines)
  let results ← pyGetE result (cl "results") (.arr [])
  let lines ← (if pyTruthy results then
      match results with
      | .arr rs => do
          let rows ← resultRows rs
          pure (lines ++ [[], cl "| Action | Status | Output |",
            cl "|--------|--------|--------|"] ++ rows)
      | _ => Except.error PyError.typeError
    else pure lines)
  let summ ← pyGetE result (cl "summary") .null
  let lines := if pyTruthy summ then lines ++ [[], cl "**Summary:** " ++ pyStr summ]
    else lines
  let worktree ← pyGetE result (cl "worktree") (.obj [])
  let lines ← (if pyTruthy worktree then do
      let wl ← worktreeLines worktree
      pure (lines ++ [[]] ++ wl)
    else pure lines)
  let br ← pyGetE result (cl "blocker_reason") .null
  let lines ← (if pyTruthy br then do
      let brv ← pyIndexE result (cl "blocker_reason")
      pure (lines ++ [[], cl "**Blocker:** " ++ pyStr brv])
    else pure lines)
  let sugg ← pyGetE result (cl "suggestion") .null
  let lines ← (if pyTruthy sugg then do
      let sv ← pyIndexE result (cl "suggestion")
      pure (lines ++ [cl "**Suggestion:** " ++ pyStr sv])
    else pure lines)
  let chain ← pyGetE result (cl "chain") (.obj [])
  let lines ← (if pyTruthy chain then do
      let chl ← chainLines chain
      pure (lines ++ [[]] ++ chl)
    else pure lines)
  let kaizen_action ← pyGetE result (cl "kaizen_action") .null
  let lines ← (if pyTruthy kaizen_action then do
      let kl ← kaizenLines result kaizen_action
      pure (lines ++ kl)
    else pure lines)
  .ok (List.intercalate (cl "\n") lines)

/-- The JSON object the bridge prints: `{}` or the
`hookSpecificOutput`/`decision`/`reason` shape. -/
inductive OutJson where
  | empty : OutJson
  | ctx (hookEventName : PyJson) (additionalContext : List Char)
      (blockReason : Option PyJson) : OutJson
deriving DecidableEq

/-- The output stage of `main` (bridge.py lines 1419-1441): `{}` for falsy
or skip results and for SessionEnd; otherwise the `hookSpecificOutput`
object, with `decision: block` and a reason when the handler requested
blocking. -/
def emit_output (hook_event result : PyJson) : Except PyError OutJson := do
  if ¬pyTruthy result then .ok .empty
  else do
    let skipv ← pyGetE result (cl "skip") .null
    if pyTruthy skipv then .ok .empty
    else if hook_event = .str (cl "SessionEnd") then .ok .empty
    else do
      let ctx ← format_context result
      let blockv ← pyGetE result (cl "block") .null
      if pyTruthy blockv then do
        let reasonv ← pyGetE result (cl "reason") (.str (cl "Hook check failed"))
        .ok (.ctx hook_event ctx (some reasonv))
      else .ok (.ctx hook_event ctx none)

/-- The routing stage of `main` (bridge.py lines 1367-1417): extract the
envelope fields and dispatch to exactly one handler, returning the hook
event value and the handler result. -/
def dispatch (input_data : PyJson) (w : World) (s : St) :
    Except PyError (PyJson × PyJson × St) := do
  let tool_name ← pyGetE input_data (cl "tool_name") (.str [])
  let tool_input ← pyGetE input_data (cl "tool_input") (.obj [])
  let tool_response ← pyGetE input_data (cl "tool_response") (.obj [])
  let hook_event ← pyGetE input_data (cl "hook_event_name") (.str [])
  if hook_event = .str (cl "SessionStart") then do
    let (res, s) ← handle_session_start input_data w s
    .ok (hook_event, res, s)
  else if hook_event = .str (cl "SessionEnd") then do
    let (res, s) ← handle_session_end input_data w s
    .ok (hook_event, res, s)
  else if tool_name = .str (cl "mcp__ohno__update_task_status") then do
    let status ← pyGetE tool_input (cl "status") (.str [])
    if status = .str (cl "done") ∨ status = .str (cl "archived") then do
      let (res, s) ← handle_task_complete tool_input tool_response w s
      .ok (hook_event, res, s)
    else if status = .str (cl "in_progress") then do
      let (res, s) ← handle_task_start tool_input tool_response w s
      .ok (hook_event, res, s)
    else
      .ok (hook_event, skipObj (cl "status is " ++ pyStr status ++
        cl ", no hooks for this transition"), s)
  else if tool_name = .str (cl "mcp__ohno__set_blocker") then do
    let (res, s) ← handle_set_blocker tool_input tool_response s
    .ok (hook_event, res, s)
  else if tool_name = .str (cl "Bash") ∧ hook_event = .str (cl "PreToolUse") then do
    let (res, s) ← handle_pre_commit tool_input w s
    .ok (hook_event, res, s)
  else if tool_name = .str (cl "Skill") ∧ hook_event = .str (cl "PostToolUse") then do
    let (res, s) ← handle_skill_complete tool_input tool_response w s
    .ok (hook_event, res, s)
  else if tool_name = .str (cl "Task") ∧ hook_event = .str (cl "PostToolUse") then do
    let at_ ← pyGetE tool_input (cl "subagent_type") (.str (cl "unknown"))
    let d ← pyGetE tool_input (cl "description") (.str [])
    let s ← record_agent_tokens at_ d tool_response s
    let (res, s) ← handle_review_complete tool_input tool_response w s
    .ok (hook_event, res, s)
  else if (tool_name = .str (cl "Edit") ∨ tool_name = .str (cl "Write")) ∧
      hook_event = .str (cl "PostToolUse") then do
    let (res, s) ← handle_file_change tool_name tool_input tool_response w s
    .ok (hook_event, res, s)
  else if tool_name = .str (cl "Bash") ∧ hook_event = .str (cl "PostToolUse") then do
    let (res, s) ← handle_bash_execution tool_input tool_response w s
    .ok (hook_event, res, s)
  else
    .ok (hook_event, skipObj (cl "unhandled event: " ++ pyStr hook_event ++ cl "/" ++
      pyStr tool_name), s)

/-- The observable result of one `main` invocation: the malformed-input
exit (status 2 with an error object), an uncaught exception (traceback,
nothing on stdout), or the printed JSON object together with the final
state. -/
inductive MainOut where
  | exit2 : MainOut
  | crashed (e : PyError) : MainOut
  | printed (out : OutJson) (s : St) : MainOut
deriving DecidableEq

/-- `main` (bridge.py lines 1358-1441): parse stdin (malformed JSON exits
with status 2), dispatch, and print exactly one JSON object unless an
exception escapes a handler. -/
def mainRun (stdin : Except Unit PyJson) (w : World) (s : St) : MainOut :=
  match stdin with
  | .error _ => .exit2
  | .ok input_data =>
      match dispatch input_data w s with
      | .error e => .crashed e
      | .ok (hook_event, res, s') =>
          match emit_output hook_event res with
          | .error e => .crashed e
          | .ok out => .printed out s'

/-
============================================================================
Concrete fixtures for witnesses and counterexamples
============================================================================
-/

/-- The empty bridge state of a freshly started process. -/
def st0 : St := {}

/-- A baseline world: no action scripts installed, empty environment,
decoding always fails.  Used to evaluate concrete invocations. -/
def baseWorld : World where
  environ := []
  cwd := cl "/proj"
  now := 0
  dateStr := cl "2026-01-01"
  dateTimeStr := cl "2026-01-01 00:00"
  isoTimeStr := cl "2026-01-01T00:00:00Z"
  actions := fun _ => ⟨false, .failed []⟩
  pathActions := fun _ => ⟨false, .failed []⟩
  npx := fun _ => .failed []
  jsonLoads := fun _ => .error ()
  configFile := none
  homeMemoryExists := false

/-- Number of knowledge-artifact writes (`write_recurring_failure_to_memory`
invocations) recorded in a state's effect trace. -/
def recurringWriteCount (s : St) : Nat :=
  (s.effects.filter (fun e =>
    match e with
    | .wroteRecurringFailure _ _ _ => true
    | _ => false)).length

/-- Number of rule-graduation invocations (`run_action` on
`graduate-rules`, i.e. `_graduate_rule` calls) recorded in a state's effect
trace. -/
def graduateCallCount (s : St) : Nat :=
  (s.effects.filter (fun e =>
    match e with
    | .ranAction n => n = cl "graduate-rules"
    | _ => false)).length

/-- `n` successive recordings of the same review failure text (category
`naming_conventions`) against the baseline world, starting from the empty
state. -/
def c1TrackIter : Nat → St
  | 0 => st0
  | n + 1 => (track_review_failure (cl "naming") (cl "T1") baseWorld (c1TrackIter n)).2

/-- A SessionEnd envelope (no chain state present in `st0`). -/
def c2Input : PyJson := .obj [(cl "hook_event_name", .str (cl "SessionEnd"))]

/-- An unrecognized event/tool combination (PostToolUse of a tool the
router does not handle). -/
def c2UnrecFields : List (List Char × PyJson) :=
  [(cl "hook_event_name", .str (cl "PostToolUse")), (cl "tool_name", .str (cl "Grep"))]

/-- A world in which the pre-commit gate scripts exist but their processes
fail to execute, producing `error` outcomes that request a block. -/
def c2BlockWorld : World :=
  { baseWorld with
    actions := fun n =>
      if n = cl "lint" then ⟨true, .failed (cl "boom")⟩
      else if n = cl "check-ref-sizes" then ⟨true, .failed (cl "boom")⟩
      else ⟨false, .failed []⟩ }

/-- A staged-commit PreToolUse envelope for the pre-commit gate. -/
def c2BlockInput : PyJson := .obj
  [(cl "hook_event_name", .str (cl "PreToolUse")),
   (cl "tool_name", .str (cl "Bash")),
   (cl "tool_input", .obj [(cl "command", .str (cl "git commit -m msg"))])]

/-- Path of the project post-review-fail hook used by the path runner
fixtures. -/
def c3Path : List Char := cl "/proj/hooks/post-review-fail.sh"

/-- A world in which the post-review-fail hook exists and exits cleanly. -/
def c3World : World :=
  { baseWorld with
    pathActions := fun p =>
      if p = c3Path then ⟨true, .completed 0 (cl "ok") []⟩ else ⟨false, .failed []⟩ }

/-- An env override whose value contains a forbidden shell metacharacter. -/
def c3BadEnv : List (List Char × PyJson) := [(cl "X", .str (cl "a;b"))]

/-- A well-formed JSON object on stdin whose nested `tool_response.task`
value is a number rather than a mapping. -/
def c8Input : PyJson := .obj
  [(cl "hook_event_name", .str (cl "PostToolUse")),
   (cl "tool_name", .str (cl "mcp__ohno__update_task_status")),
   (cl "tool_input", .obj [(cl "status", .str (cl "in_progress")),
     (cl "task_id", .str (cl "T1"))]),
   (cl "tool_response", .obj [(cl "task", .num 3)])]

/-- An active chain state used by the chain-transition witness. -/
def c6Chain : ChainState :=
  { chain_id := cl "c1", chain_index := 2, scope_type := cl "epic",
    scope_id := cl "E1", tasks_completed := 5 }

/-- A world whose `session-chain` action prints a token that decodes to a
`continue` decision. -/
def c6World : World :=
  { baseWorld with
    actions := fun n =>
      if n = cl "session-chain" then ⟨true, .completed 0 (cl "CONT") []⟩
      else ⟨false, .failed []⟩,
    jsonLoads := fun s_ =>
      if s_ = cl "CONT" then .ok (.obj [(cl "action", .str (cl "continue"))])
      else .error () }

/-- The bridge state holding the active chain of `c6Chain`. -/
def c6State : St := { chainFile := some c6Chain }

/-- The sanitized `session-chain` environment for the `c6Chain` witness. -/
def c6Senv : List (List Char × List Char) :=
  [(cl "CHAIN_ID", cl "c1"), (cl "CHAIN_INDEX", cl "2"), (cl "MAX_CHAINS", cl "10"),
   (cl "SCOPE_TYPE", cl "epic"), (cl "SCOPE_ID", cl "E1"),
   (cl "TASKS_COMPLETED", cl "5"), (cl "CHAIN_AUDITED", cl "false"),
   (cl "REPORT_MODE", cl "on_complete"), (cl "NOTIFY_MODE", cl "terminal")]

/-- A review-agent Task tool_input recognized through its description. -/
def c9Input : PyJson := .obj
  [(cl "description", .str (cl "run spec review")),
   (cl "subagent_type", .str (cl "general"))]

/-- A world with one action of each execution behaviour, for the outcome
mapping witnesses. -/
def c4World : World :=
  { baseWorld with
    actions := fun n =>
      if n = cl "ok-action" then ⟨true, .completed 0 (cl "out") []⟩
      else if n = cl "warn-action" then ⟨true, .completed 2 (cl "out") (cl "err")⟩
      else if n = cl "slow-action" then ⟨true, .timedOut⟩
      else if n = cl "bad-action" then ⟨true, .failed (cl "secret details")⟩
      else ⟨false, .failed []⟩ }

/-- A world in which every action script exists and exits cleanly. -/
def c5World : World :=
  { baseWorld with now := 30, actions := fun _ => ⟨true, .completed 0 [] []⟩ }

/-- Nine admitted timestamps inside the rolling window. -/
def c5NineStamps : List Int := [1, 2, 3, 4, 5, 6, 7, 8, 9]

/-- Ten admitted timestamps inside the rolling window. -/
def c5TenStamps : List Int := [1, 2, 3, 4, 5, 6, 7, 8, 9, 10]

/-- A bridge state whose `sync` window already holds ten admitted calls. -/
def c5FullState : St := { hookExecutions := [(cl "sync", c5TenStamps)] }

/-- A review-agent result containing both markers; `": PASS"` wins. -/
def c9PassFailResult : PyJson :=
  .obj [(cl "result", .str (cl "spec: PASS but quality: FAIL"))]

/-- A review-agent result containing bare `FAIL` but neither `": PASS"` nor
`": FAIL"`. -/
def c9BareFailResult : PyJson :=
  .obj [(cl "result", .str (cl "FAILURE happened"))]

/-
============================================================================
Helper lemmas
============================================================================
-/

theorem sanitize_str_bad {sv : List Char} (field : List Char)
    (h : (stripNonPrintable sv).any isMetaChar = true) :
    (sanitize_env_value (.str sv) field).toOption = none := by
  have hne : (stripNonPrintable sv).filter isMetaChar ≠ [] := by
    intro hnil
    rw [List.any_eq_true] at h
    obtain ⟨a, ha, hma⟩ := h
    have hfa := List.filter_eq_nil_iff.mp hnil a ha
    simp [hma] at hfa
  simp only [sanitize_env_value]
  rw [if_neg hne]
  rfl

theorem sanitize_str_clean {sv field : List Char}
    (hp : ∀ c ∈ sv, pyIsPrintable c = true)
    (hm : ∀ c ∈ sv, isMetaChar c = false) :
    sanitize_env_value (.str sv) field = .ok sv := by
  simp only [sanitize_env_value, stripNonPrintable]
  have h1 : sv.filter (fun c => pyIsPrintable c || c = ' ' || c = '\t') = sv :=
    List.filter_eq_self.mpr (fun a ha => by simp [hp a ha])
  rw [h1]
  have h2 : sv.filter isMetaChar = [] :=
    List.filter_eq_nil_iff.mpr (fun a ha => by simp [hm a ha])
  rw [h2]
  simp

theorem sanitizeEnvAll_err_of_bad {env : List (List Char × PyJson)}
    {k sv : List Char} (hmem : (k, PyJson.str sv) ∈ env)
    (hbad : (stripNonPrintable sv).any isMetaChar = true) :
    (sanitizeEnvAll env).toOption = none := by
  induction env with
  | nil => cases hmem
  | cons hd tl ih =>
      obtain ⟨k2, v2⟩ := hd
      rw [List.mem_cons] at hmem
      rcases hmem with hmem | hmem
      · obtain ⟨_h1, h2⟩ := Prod.mk.inj hmem
        simp only [sanitizeEnvAll]
        rw [← h2]
        cases hsan : sanitize_env_value (PyJson.str sv) k2 with
        | ok v =>
            have hb := sanitize_str_bad k2 hbad
            rw [hsan] at hb
            simp [Except.toOption] at hb
        | error e => simp [hsan, Except.toOption, Except.bind, bind]
      · simp only [sanitizeEnvAll]
        cases hsan : sanitize_env_value v2 k2 with
        | error e => simp [hsan, Except.toOption, Except.bind, bind]
        | ok v =>
            have htl := ih hmem
            cases h2 : sanitizeEnvAll tl with
            | error e => simp [hsan, h2, Except.toOption, Except.bind, bind]
            | ok r => rw [h2] at htl; simp [Except.toOption] at htl

/-
============================================================================
C7 and C10: the sanitizer
============================================================================
-/

/-- C7: a string containing any forbidden shell metacharacter (after
non-printable stripping) is rejected by `sanitize_env_value`, and a
printable metacharacter-free string is returned unchanged. -/
theorem c7_sanitizer_spec (sv field : List Char) :
    ((stripNonPrintable sv).any isMetaChar = true →
      (sanitize_env_value (.str sv) field).toOption = none)
    ∧ ((∀ c ∈ sv, pyIsPrintable c = true ∧ isMetaChar c = false) →
      sanitize_env_value (.str sv) field = .ok sv) := by
  constructor
  · exact fun h => sanitize_str_bad field h
  · intro h
    exact sanitize_str_clean (fun c hc => (h c hc).1) (fun c hc => (h c hc).2)

/-- Witness for C7 at concrete inputs: a value with a semicolon is
rejected; a plain printable value passes through unchanged. -/
theorem c7_sanitizer_spec_witness :
    (sanitize_env_value (.str (cl "a;b")) (cl "FIELD")).toOption = none
    ∧ sanitize_env_value (.str (cl "safe value")) (cl "FIELD") = .ok (cl "safe value") :=
  ⟨(c7_sanitizer_spec (cl "a;b") (cl "FIELD")).1 (by decide),
   (c7_sanitizer_spec (cl "safe value") (cl "FIELD")).2 (by decide)⟩

/-- C10: `sanitize_env_value` returns `str(value)` for every non-string
value, with no stripping and no metacharacter check; in particular the
list value `["a;b"]` renders to a string containing `;` and is still
accepted. -/
theorem c10_nonstring_bypass (v : PyJson) (field : List Char) :
    ((∀ s_, v ≠ .str s_) → sanitize_env_value v field = .ok (pyStr v))
    ∧ (sanitize_env_value (.arr [.str (cl "a;b")]) field =
        .ok (pyStr (.arr [.str (cl "a;b")]))
      ∧ (pyStr (.arr [.str (cl "a;b")])).any isMetaChar = true) := by
  constructor
  · intro h
    cases v with
    | str s_ => exact absurd rfl (h s_)
    | null => rfl
    | bool b => rfl
    | num n => rfl
    | arr xs => rfl
    | obj fs => rfl
  · exact ⟨rfl, by decide⟩

/-- Witness for C10 at a concrete non-string value. -/
theorem c10_nonstring_bypass_witness :
    sanitize_env_value (.num 3) (cl "FIELD") = .ok (pyStr (.num 3)) :=
  (c10_nonstring_bypass (.num 3) (cl "FIELD")).1 (fun _ h => PyJson.noConfusion h)

/-
============================================================================
C1: the failure tracker double-fires at the threshold (code evaluation)
============================================================================
-/

/-- C1 (code evaluation at the failing input): recording the same failure
category three times never writes during the first two recordings, but the
third recording writes the knowledge artifact and invokes the
rule-graduation action twice (not once, as claimed): the first-threshold
branch fires and sets the latch, and then the multiple-of-threshold branch
re-fires within the same call.  The sixth recording fires exactly once
more. -/
theorem c1_threshold_double_fire :
    recurringWriteCount (c1TrackIter 2) = 0
    ∧ graduateCallCount (c1TrackIter 2) = 0
    ∧ recurringWriteCount (c1TrackIter 3) = 2
    ∧ graduateCallCount (c1TrackIter 3) = 2
    ∧ (catLookup (loadFailureTracking (c1TrackIter 3)) (cl "naming_conventions")).written
        = true
    ∧ (catLookup (loadFailureTracking (c1TrackIter 3)) (cl "naming_conventions")).count
        = 3
    ∧ recurringWriteCount (c1TrackIter 5) = 2
    ∧ recurringWriteCount (c1TrackIter 6) = 3
    ∧ graduateCallCount (c1TrackIter 6) = 3 := by decide

/-
============================================================================
C8: the dispatcher can raise on a well-formed input object
============================================================================
-/

/-- C8 (code evaluation at the failing input): on the well-formed JSON
object `c8Input` (whose `tool_response.task` is a number), `main` raises an
uncaught `AttributeError` out of `handle_task_start` instead of printing a
JSON object. -/
theorem c8_dispatcher_crash :
    mainRun (.ok c8Input) baseWorld st0 = .crashed .attributeError := by decide

/-
============================================================================
C3: only run_action sanitizes environment overrides
============================================================================
-/

/-- Counterexample to C3 as stated: `run_action_at_path`, given an override
value containing the forbidden metacharacter `;`, does not block — it
spawns the process with the dangerous value applied verbatim to the
process environment, and the outcome status is `success`. -/
theorem c3_counterexample_path_runner :
    pyIndexE (run_action_at_path c3World c3Path c3BadEnv st0).1 (cl "status")
      = .ok (.str (cl "success"))
    ∧ (run_action_at_path c3World c3Path c3BadEnv st0).2.effects =
        [.ranPathAction (cl "post-review-fail"),
         .spawnedPath c3Path [(cl "X", cl "a;b")]]
    ∧ (cl "a;b").any isMetaChar = true := by decide

theorem run_action_skipped (w : World) (name : List Char) (args : List (List Char))
    (env : List (List Char × PyJson)) (s : St)
    (hp : (w.actions name).present = false) :
    run_action w name args env s = (skippedOutcome name, addEffect s (.ranAction name)) := by
  simp [run_action, hp]

theorem run_action_rate_limited (w : World) (name : List Char) (args : List (List Char))
    (env : List (List Char × PyJson)) (s : St)
    (hp : (w.actions name).present = true)
    (hfull : RATE_LIMIT_MAX_EXECUTIONS ≤ ((lookupExecs s.hookExecutions name).filter
      (fun t => w.now - t < RATE_LIMIT_WINDOW_SECONDS)).length) :
    run_action w name args env s =
      (rateLimitedOutcome name (cl "Rate limited: " ++ name ++ cl " exceeded " ++
        natChars RATE_LIMIT_MAX_EXECUTIONS ++ cl " executions per minute"),
       { s with
         hookExecutions := setExecs s.hookExecutions name
           ((lookupExecs s.hookExecutions name).filter
             (fun t => w.now - t < RATE_LIMIT_WINDOW_SECONDS)),
         effects := s.effects ++ [.ranAction name] }) := by
  simp [run_action, addEffect, check_rate_limit, hp, hfull]

theorem run_action_blocked (w : World) (name : List Char) (args : List (List Char))
    (env : List (List Char × PyJson)) (s : St) (e : DangerousErr)
    (hp : (w.actions name).present = true)
    (hadm : ((lookupExecs s.hookExecutions name).filter
      (fun t => w.now - t < RATE_LIMIT_WINDOW_SECONDS)).length < RATE_LIMIT_MAX_EXECUTIONS)
    (hsan : sanitizeEnvAll env = .error e) :
    run_action w name args env s =
      (blockedOutcome name e,
       { s with
         hookExecutions := setExecs s.hookExecutions name
           ((lookupExecs s.hookExecutions name).filter
             (fun t => w.now - t < RATE_LIMIT_WINDOW_SECONDS) ++ [w.now]),
         effects := s.effects ++ [.ranAction name] }) := by
  have hnle := not_le.mpr hadm
  simp [run_action, addEffect, check_rate_limit, hp, hsan, hnle]

theorem run_action_exec (w : World) (name : List Char) (args : List (List Char))
    (env : List (List Char × PyJson)) (s : St) (sp : SpawnOutcome)
    (senv : List (List Char × List Char))
    (hact : w.actions name = ⟨true, sp⟩)
    (hadm : ((lookupExecs s.hookExecutions name).filter
      (fun t => w.now - t < RATE_LIMIT_WINDOW_SECONDS)).length < RATE_LIMIT_MAX_EXECUTIONS)
    (hsan : sanitizeEnvAll env = .ok senv) :
    run_action w name args env s =
      ((match sp with
        | .completed rc out err => completedOutcome name rc out err
        | .timedOut => timeoutOutcome name (get_timeout name)
        | .failed _ => errorOutcome name),
       { s with
         hookExecutions := setExecs s.hookExecutions name
           ((lookupExecs s.hookExecutions name).filter
             (fun t => w.now - t < RATE_LIMIT_WINDOW_SECONDS) ++ [w.now]),
         effects := s.effects ++ [.ranAction name,
           .spawned name args (envUpdate w.environ senv)] }) := by
  have hnle := not_le.mpr hadm
  simp only [run_action, addEffect, check_rate_limit, hact, hsan, hnle]
  cases sp <;> simp

theorem run_action_preserves (w : World) (name : List Char) (args : List (List Char))
    (env : List (List Char × PyJson)) (s : St) :
    (run_action w name args env s).2.chainFile = s.chainFile
    ∧ (run_action w name args env s).2.failureFile = s.failureFile
    ∧ (run_action w name args env s).2.tokenFile = s.tokenFile
    ∧ (run_action w name args env s).2.trackedFiles = s.trackedFiles
    ∧ (run_action w name args env s).2.lastWipUpdate = s.lastWipUpdate := by
  unfold run_action
  simp only [addEffect]
  split
  · exact ⟨rfl, rfl, rfl, rfl, rfl⟩
  · split
    · exact ⟨rfl, rfl, rfl, rfl, rfl⟩
    · split
      · exact ⟨rfl, rfl, rfl, rfl, rfl⟩
      · split <;> exact ⟨rfl, rfl, rfl, rfl, rfl⟩

theorem run_action_has_status (w : World) (name : List Char) (args : List (List Char))
    (env : List (List Char × PyJson)) (s : St) :
    ∃ stv, pyIndexE (run_action w name args env s).1 (cl "status") = .ok (.str stv) := by
  cases hpp : (w.actions name).present with
  | false =>
      rw [run_action_skipped w name args env s hpp]
      exact ⟨cl "skipped", rfl⟩
  | true =>
      by_cases hadm : ((lookupExecs s.hookExecutions name).filter
        (fun t => w.now - t < RATE_LIMIT_WINDOW_SECONDS)).length < RATE_LIMIT_MAX_EXECUTIONS
      · cases hsan : sanitizeEnvAll env with
        | error e =>
            rw [run_action_blocked w name args env s e hpp hadm hsan]
            exact ⟨_, rfl⟩
        | ok senv =>
            cases hw : w.actions name with
            | mk pres sp =>
                rw [hw] at hpp
                have hpres : pres = true := hpp
                subst hpres
                rw [run_action_exec w name args env s sp senv hw hadm hsan]
                cases sp with
                | completed rc out err => exact ⟨_, rfl⟩
                | timedOut => exact ⟨_, rfl⟩
                | failed msg => exact ⟨_, rfl⟩
      · have hfull := not_lt.mp hadm
        rw [run_action_rate_limited w name args env s hpp hfull]
        exact ⟨_, rfl⟩

theorem countStatus_exists {rs : List PyJson}
    (h : ∀ r ∈ rs, ∃ stv, pyIndexE r (cl "status") = .ok (.str stv)) (v : List Char) :
    ∃ k, countStatus rs v = .ok k := by
  induction rs with
  | nil => exact ⟨0, rfl⟩
  | cons r rest ih =>
      obtain ⟨stv, hst⟩ := h r (List.mem_cons_self r rest)
      obtain ⟨k, hk⟩ := ih (fun x hx => h x (List.mem_cons_of_mem _ hx))
      exact ⟨(if stv = v then 1 else 0) + k,
        by simp [countStatus, hst, hk, bind, Except.bind]⟩

theorem filter_window_id {l : List Int} {now : Int}
    (h : ∀ t ∈ l, now - t < RATE_LIMIT_WINDOW_SECONDS) :
    l.filter (fun t => now - t < RATE_LIMIT_WINDOW_SECONDS) = l :=
  List.filter_eq_self.mpr (fun a ha => by simp [h a ha])

theorem lookupExecs_setExecs_other {name name' : List Char} (h : name' ≠ name)
    (m : List (List Char × List Int)) (l : List Int) :
    lookupExecs (setExecs m name l) name' = lookupExecs m name' := by
  unfold setExecs
  split
  · unfold lookupExecs
    have hmap : ∀ mm : List (List Char × List Int),
        (mm.map (fun kv => if kv.1 = name then (name, l) else kv)).find?
            (fun kv => kv.1 = name')
          = mm.find? (fun kv => kv.1 = name') := by
      intro mm
      induction mm with
      | nil => rfl
      | cons kv rest ih =>
          by_cases hk : kv.1 = name
          · rw [List.map_cons, if_pos hk]
            rw [List.find?_cons_of_neg _ (by simp [Ne.symm h]),
              List.find?_cons_of_neg _ (by simp [hk, Ne.symm h])]
            exact ih
          · rw [List.map_cons, if_neg hk]
            by_cases hk' : kv.1 = name'
            · rw [List.find?_cons_of_pos _ (by simp [hk']),
                List.find?_cons_of_pos _ (by simp [hk'])]
            · rw [List.find?_cons_of_neg _ (by simp [hk']),
                List.find?_cons_of_neg _ (by simp [hk'])]
              exact ih
    rw [hmap]
  · unfold lookupExecs
    have happ : ∀ mm : List (List Char × List Int),
        (mm ++ [(name, l)]).find? (fun kv => kv.1 = name')
          = mm.find? (fun kv => kv.1 = name') := by
      intro mm
      induction mm with
      | nil => simp [List.find?, Ne.symm h]
      | cons kv rest ih =>
          by_cases hk' : kv.1 = name'
          · rw [List.cons_append, List.find?_cons_of_pos _ (by simp [hk']),
              List.find?_cons_of_pos _ (by simp [hk'])]
          · rw [List.cons_append, List.find?_cons_of_neg _ (by simp [hk']),
              List.find?_cons_of_neg _ (by simp [hk'])]
            exact ih
    rw [happ]

theorem run_action_execs_other (w : World) (name : List Char) (args : List (List Char))
    (env : List (List Char × PyJson)) (s : St) {name' : List Char} (h : name' ≠ name) :
    lookupExecs (run_action w name args env s).2.hookExecutions name' =
      lookupExecs s.hookExecutions name' := by
  unfold run_action
  simp only [addEffect]
  split
  · rfl
  · split
    · exact lookupExecs_setExecs_other h _ _
    · split
      · exact lookupExecs_setExecs_other h _ _
      · split <;> exact lookupExecs_setExecs_other h _ _

/-
============================================================================
C4: the action runner is total and maps execution results faithfully
============================================================================
-/

/-- C4: `run_action` always returns a structured outcome dict (an `action`
field naming the action and a `status` drawn from the seven-value
taxonomy), never an exception; a missing script yields `skipped`; a
completed process yields `success` exactly for exit code 0 and `warning`
for every other exit code; exceeding the timeout yields `timeout`; any
other execution fault yields `error` with the generic, non-leaking reason
`Script execution failed`, whatever the fault message was. -/
theorem c4_run_action_outcomes (w : World) (name : List Char) (args : List (List Char))
    (env : List (List Char × PyJson)) (s : St) :
    (∃ stv, pyIndexE (run_action w name args env s).1 (cl "status") = .ok (.str stv)
      ∧ stv ∈ [cl "skipped", cl "rate_limited", cl "blocked", cl "success",
               cl "warning", cl "timeout", cl "error"]
      ∧ pyIndexE (run_action w name args env s).1 (cl "action") = .ok (.str name))
    ∧ ((w.actions name).present = false →
        (run_action w name args env s).1 = skippedOutcome name)
    ∧ (∀ rc out err senv, w.actions name = ⟨true, .completed rc out err⟩ →
        ((lookupExecs s.hookExecutions name).filter
          (fun t => w.now - t < RATE_LIMIT_WINDOW_SECONDS)).length
            < RATE_LIMIT_MAX_EXECUTIONS →
        sanitizeEnvAll env = .ok senv →
        pyIndexE (run_action w name args env s).1 (cl "status") =
          .ok (.str (if rc = 0 then cl "success" else cl "warning")))
    ∧ (∀ senv, w.actions name = ⟨true, .timedOut⟩ →
        ((lookupExecs s.hookExecutions name).filter
          (fun t => w.now - t < RATE_LIMIT_WINDOW_SECONDS)).length
            < RATE_LIMIT_MAX_EXECUTIONS →
        sanitizeEnvAll env = .ok senv →
        (run_action w name args env s).1 = timeoutOutcome name (get_timeout name))
    ∧ (∀ msg senv, w.actions name = ⟨true, .failed msg⟩ →
        ((lookupExecs s.hookExecutions name).filter
          (fun t => w.now - t < RATE_LIMIT_WINDOW_SECONDS)).length
            < RATE_LIMIT_MAX_EXECUTIONS →
        sanitizeEnvAll env = .ok senv →
        (run_action w name args env s).1 = errorOutcome name
        ∧ pyIndexE (run_action w name args env s).1 (cl "reason") =
            .ok (.str (cl "Script execution failed"))) := by
  refine ⟨?_, ?_, ?_, ?_, ?_⟩
  · cases hpp : (w.actions name).present with
    | false =>
        rw [run_action_skipped w name args env s hpp]
        exact ⟨cl "skipped", rfl, by decide, rfl⟩
    | true =>
        by_cases hadm : ((lookupExecs s.hookExecutions name).filter
          (fun t => w.now - t < RATE_LIMIT_WINDOW_SECONDS)).length
            < RATE_LIMIT_MAX_EXECUTIONS
        · cases hsan : sanitizeEnvAll env with
          | error e =>
              rw [run_action_blocked w name args env s e hpp hadm hsan]
              exact ⟨cl "blocked", rfl, by decide, rfl⟩
          | ok senv =>
              cases hw : w.actions name with
              | mk pres sp =>
                  rw [hw] at hpp
                  have hpres : pres = true := hpp
                  subst hpres
                  rw [run_action_exec w name args env s sp senv hw hadm hsan]
                  cases sp with
                  | completed rc out err =>
                      refine ⟨if rc = 0 then cl "success" else cl "warning", rfl, ?_, rfl⟩
                      by_cases h0 : rc = 0
                      · rw [if_pos h0]; decide
                      · rw [if_neg h0]; decide
                  | timedOut => exact ⟨cl "timeout", rfl, by decide, rfl⟩
                  | failed msg => exact ⟨cl "error", rfl, by decide, rfl⟩
        · have hfull := not_lt.mp hadm
          rw [run_action_rate_limited w name args env s hpp hfull]
          exact ⟨cl "rate_limited", rfl, by decide, rfl⟩
  · intro hp
    rw [run_action_skipped w name args env s hp]
  · intro rc out err senv hw hadm hsan
    rw [run_action_exec w name args env s (.completed rc out err) senv hw hadm hsan]
    rfl
  · intro senv hw hadm hsan
    rw [run_action_exec w name args env s .timedOut senv hw hadm hsan]
  · intro msg senv hw hadm hsan
    rw [run_action_exec w name args env s (.failed msg) senv hw hadm hsan]
    exact ⟨rfl, rfl⟩

/-- Witness for C4: each execution behaviour of `c4World` maps to the
specified status. -/
theorem c4_run_action_outcomes_witness :
    (run_action c4World (cl "missing-action") [] [] st0).1 =
      skippedOutcome (cl "missing-action")
    ∧ pyIndexE (run_action c4World (cl "ok-action") [] [] st0).1 (cl "status") =
        .ok (.str (cl "success"))
    ∧ pyIndexE (run_action c4World (cl "warn-action") [] [] st0).1 (cl "status") =
        .ok (.str (cl "warning"))
    ∧ (run_action c4World (cl "slow-action") [] [] st0).1 =
        timeoutOutcome (cl "slow-action") (get_timeout (cl "slow-action"))
    ∧ (run_action c4World (cl "bad-action") [] [] st0).1 = errorOutcome (cl "bad-action") := by
  refine ⟨?_, ?_, ?_, ?_, ?_⟩
  · exact (c4_run_action_outcomes c4World (cl "missing-action") [] [] st0).2.1 (by decide)
  · have h := (c4_run_action_outcomes c4World (cl "ok-action") [] [] st0).2.2.1
      0 (cl "out") [] [] (by decide) (by decide) (by decide)
    simpa using h
  · have h := (c4_run_action_outcomes c4World (cl "warn-action") [] [] st0).2.2.1
      2 (cl "out") (cl "err") [] (by decide) (by decide) (by decide)
    simpa using h
  · exact (c4_run_action_outcomes c4World (cl "slow-action") [] [] st0).2.2.2.1
      [] (by decide) (by decide) (by decide)
  · exact ((c4_run_action_outcomes c4World (cl "bad-action") [] [] st0).2.2.2.2
      (cl "secret details") [] (by decide) (by decide) (by decide)).1

/-
============================================================================
C5: the sliding-window rate limiter
============================================================================
-/

/-- C5: with nine admitted timestamps inside the rolling 60-second window,
the tenth check is admitted and records its timestamp; with ten inside the
window, the next check is rejected and the stored list keeps only the
pruned timestamps (no new one recorded); admission is decided only over
the timestamps still inside the window; and when `run_action` is rejected
by the limiter the outcome status is `rate_limited`, no process is spawned
(the only effect is the call record), and the stored window for the action
is the pruned list without a new timestamp. -/
theorem c5_rate_limiter (name : List Char) (l : List Int) (now : Int) (w : World)
    (args : List (List Char)) (env : List (List Char × PyJson)) (s : St) :
    ((∀ t ∈ l, now - t < RATE_LIMIT_WINDOW_SECONDS) → l.length = 9 →
      check_rate_limit name l now = (none, l ++ [now]))
    ∧ ((∀ t ∈ l, now - t < RATE_LIMIT_WINDOW_SECONDS) → l.length = 10 →
      (check_rate_limit name l now).1.isSome = true
      ∧ (check_rate_limit name l now).2 = l)
    ∧ ((check_rate_limit name l now).1 = none ↔
      (l.filter (fun t => now - t < RATE_LIMIT_WINDOW_SECONDS)).length <
        RATE_LIMIT_MAX_EXECUTIONS)
    ∧ ((w.actions name).present = true →
      RATE_LIMIT_MAX_EXECUTIONS ≤ ((lookupExecs s.hookExecutions name).filter
        (fun t => w.now - t < RATE_LIMIT_WINDOW_SECONDS)).length →
      pyIndexE (run_action w name args env s).1 (cl "status") =
        .ok (.str (cl "rate_limited"))
      ∧ (run_action w name args env s).2.effects = s.effects ++ [.ranAction name]
      ∧ (run_action w name args env s).2.hookExecutions =
          setExecs s.hookExecutions name ((lookupExecs s.hookExecutions name).filter
            (fun t => w.now - t < RATE_LIMIT_WINDOW_SECONDS))) := by
  refine ⟨?_, ?_, ?_, ?_⟩
  · intro hw h9
    simp only [check_rate_limit, filter_window_id hw, h9]
    rw [if_neg (by decide)]
  · intro hw h10
    simp only [check_rate_limit, filter_window_id hw, h10]
    rw [if_pos (by decide)]
    exact ⟨rfl, rfl⟩
  · simp only [check_rate_limit]
    by_cases hc : RATE_LIMIT_MAX_EXECUTIONS ≤
        (l.filter (fun t => now - t < RATE_LIMIT_WINDOW_SECONDS)).length
    · rw [if_pos hc]
      simp [not_lt.mpr hc]
    · rw [if_neg hc]
      simp [not_le.mp hc]
  · intro hp hfull
    rw [run_action_rate_limited w name args env s hp hfull]
    exact ⟨rfl, rfl, rfl⟩

/-- Witness for C5: the tenth call on a nine-entry window is admitted and
recorded; with ten admitted entries a further `run_action` is
rate_limited, spawns nothing, and records no new timestamp. -/
theorem c5_rate_limiter_witness :
    check_rate_limit (cl "sync") c5NineStamps 30 = (none, c5NineStamps ++ [30])
    ∧ (check_rate_limit (cl "sync") c5TenStamps 30).1.isSome = true
    ∧ (check_rate_limit (cl "sync") c5TenStamps 30).2 = c5TenStamps
    ∧ pyIndexE (run_action c5World (cl "sync") [] [] c5FullState).1 (cl "status") =
        .ok (.str (cl "rate_limited"))
    ∧ (run_action c5World (cl "sync") [] [] c5FullState).2.effects =
        [.ranAction (cl "sync")] := by
  have h1 := (c5_rate_limiter (cl "sync") c5NineStamps 30 c5World [] [] c5FullState).1
    (by decide) (by decide)
  have h2 := (c5_rate_limiter (cl "sync") c5TenStamps 30 c5World [] [] c5FullState).2.1
    (by decide) (by decide)
  have h4 := (c5_rate_limiter (cl "sync") c5TenStamps 30 c5World [] []
    c5FullState).2.2.2 (by decide) (by decide)
  exact ⟨h1, h2.1, h2.2, h4.1, by simpa using h4.2.1⟩

/-
============================================================================
C3: sanitization applies to run_action only (amended)
============================================================================
-/

/-- C3 (amended): in `run_action`, every env override passes through
`sanitize_env_value` before any process is spawned: when some override is a
string containing a forbidden metacharacter after stripping, the outcome
status is `blocked`, nothing is spawned, and no override is applied (the
only effect of the call is its record); and when sanitization accepts, the
process is spawned with exactly the merged sanitized environment.
(`run_action_at_path` has no such guard — see the counterexample.) -/
theorem c3_run_action_sanitizes (w : World) (name : List Char)
    (args : List (List Char)) (env : List (List Char × PyJson)) (s : St)
    (hp : (w.actions name).present = true)
    (hadm : ((lookupExecs s.hookExecutions name).filter
      (fun t => w.now - t < RATE_LIMIT_WINDOW_SECONDS)).length
        < RATE_LIMIT_MAX_EXECUTIONS) :
    ((∃ k sv, (k, PyJson.str sv) ∈ env ∧ (stripNonPrintable sv).any isMetaChar = true) →
      pyIndexE (run_action w name args env s).1 (cl "status") = .ok (.str (cl "blocked"))
      ∧ (run_action w name args env s).2.effects = s.effects ++ [.ranAction name])
    ∧ (∀ senv, sanitizeEnvAll env = .ok senv →
      (run_action w name args env s).2.effects =
        s.effects ++ [.ranAction name, .spawned name args (envUpdate w.environ senv)]) := by
  constructor
  · rintro ⟨k, sv, hmem, hbad⟩
    have herr := sanitizeEnvAll_err_of_bad hmem hbad
    cases hsan : sanitizeEnvAll env with
    | ok senv => rw [hsan] at herr; simp [Except.toOption] at herr
    | error e =>
        rw [run_action_blocked w name args env s e hp hadm hsan]
        exact ⟨rfl, rfl⟩
  · intro senv hsan
    cases hw : w.actions name with
    | mk pres sp =>
        rw [hw] at hp
        have hpres : pres = true := hp
        subst hpres
        rw [run_action_exec w name args env s sp senv hw hadm hsan]

/-
============================================================================
C9: PASS/FAIL markers in the review-completion handler
============================================================================
-/

/-- C9: for a recognized review agent, a result containing `": PASS"`
anywhere is a no-op with reason `review passed` (even when `": FAIL"` is
also present, since PASS is tested first), with the bridge state untouched;
and the markers require the colon-space prefix: a result with neither
`": PASS"` nor `": FAIL"` (for instance bare `FAIL`) is the
`could not determine review result` no-op, again with the state untouched
(so no failure tracking happens). -/
theorem c9_review_markers (d st_ out : List Char) (w : World) (s : St)
    (hrev : ((pyIn (cl "spec-review") st_ || pyIn (cl "spec review") (lowerCL d)) ||
             (pyIn (cl "quality-review") st_ ||
              pyIn (cl "quality review") (lowerCL d))) = true) :
    (pyIn (cl ": PASS") out = true →
      handle_review_complete
        (.obj [(cl "description", .str d), (cl "subagent_type", .str st_)])
        (.obj [(cl "result", .str out)]) w s = .ok (skipObj (cl "review passed"), s))
    ∧ (pyIn (cl ": PASS") out = false → pyIn (cl ": FAIL") out = false →
      handle_review_complete
        (.obj [(cl "description", .str d), (cl "subagent_type", .str st_)])
        (.obj [(cl "result", .str out)]) w s =
          .ok (skipObj (cl "could not determine review result"), s)) := by
  have hstep : handle_review_complete
      (.obj [(cl "description", .str d), (cl "subagent_type", .str st_)])
      (.obj [(cl "result", .str out)]) w s =
      (if ¬((pyIn (cl "spec-review") st_ || pyIn (cl "spec review") (lowerCL d)) ||
            (pyIn (cl "quality-review") st_ ||
             pyIn (cl "quality review") (lowerCL d))) then
        .ok (skipObj (cl "not a review task"), s)
      else
        reviewOutcome (pyIn (cl "spec-review") st_ || pyIn (cl "spec review") (lowerCL d))
          (.obj [(cl "result", .str out)]) w s) := rfl
  rw [hrev] at hstep
  simp only [not_true, if_false, ite_false] at hstep
  have hstep2 : reviewOutcome
      (pyIn (cl "spec-review") st_ || pyIn (cl "spec review") (lowerCL d))
      (.obj [(cl "result", .str out)]) w s =
      reviewMark (pyIn (cl "spec-review") st_ || pyIn (cl "spec review") (lowerCL d))
        out w s := rfl
  constructor
  · intro hpass
    rw [hstep, hstep2]
    unfold reviewMark
    rw [hpass]
    simp
  · intro hpass hfail
    rw [hstep, hstep2]
    unfold reviewMark
    rw [hpass, hfail]
    simp

/-- Witness for C9: a result containing both markers is routed as passed; a
result containing bare `FAIL` (no `": FAIL"`, no `": PASS"`) is routed as
undetermined; neither changes the bridge state. -/
theorem c9_review_markers_witness :
    handle_review_complete c9Input c9PassFailResult baseWorld st0 =
      .ok (skipObj (cl "review passed"), st0)
    ∧ handle_review_complete c9Input c9BareFailResult baseWorld st0 =
      .ok (skipObj (cl "could not determine review result"), st0)
    ∧ pyIn (cl ": FAIL") (cl "spec: PASS but quality: FAIL") = true
    ∧ pyIn (cl "FAIL") (cl "FAILURE happened") = true := by
  refine ⟨?_, ?_, by decide, by decide⟩
  · exact (c9_review_markers (cl "run spec review") (cl "general")
      (cl "spec: PASS but quality: FAIL") baseWorld st0 (by decide)).1 (by decide)
  · exact (c9_review_markers (cl "run spec review") (cl "general")
      (cl "FAILURE happened") baseWorld st0 (by decide)).2 (by decide) (by decide)

/-
============================================================================
C2: the printed JSON object (SessionEnd counterexample and amended shape)
============================================================================
-/

/-- Counterexample to C2 as stated: on a SessionEnd invocation the routed
handler result is truthy and carries no `skip` key (it is not a no-op),
yet `main` prints exactly the empty object instead of a
`hookSpecificOutput` object. -/
theorem c2_counterexample_session_end :
    (dispatch c2Input baseWorld st0).map (fun p => pyTruthy p.2.1) = .ok true
    ∧ (dispatch c2Input baseWorld st0).map
        (fun p => pyGetE p.2.1 (cl "skip") PyJson.null) = .ok (.ok .null)
    ∧ mainRun (.ok c2Input) baseWorld st0 =
        .printed .empty
          (((dispatch c2Input baseWorld st0).map (fun p => p.2.2)).toOption.getD st0) := by
  refine ⟨by decide, by decide, by decide⟩

/-- C2 (amended): for a well-formed JSON object on stdin, `main` prints
exactly `{}` when the event/tool combination is unrecognized, and whenever
the routed handler result is falsy, is a skip result, or the event is
SessionEnd; otherwise, when the invocation completes without raising, it
prints the `hookSpecificOutput` object carrying the hook event name and
the formatted context, together with `decision: block` and the reason
exactly when the handler requested blocking. -/
theorem c2_output_shape_amended (j : PyJson) (w : World) (s : St) :
    (∀ fs, j = .obj fs →
      (pyLookup fs (cl "hook_event_name")).getD (.str []) ≠ .str (cl "SessionStart") →
      (pyLookup fs (cl "hook_event_name")).getD (.str []) ≠ .str (cl "SessionEnd") →
      (pyLookup fs (cl "tool_name")).getD (.str []) ≠
        .str (cl "mcp__ohno__update_task_status") →
      (pyLookup fs (cl "tool_name")).getD (.str []) ≠ .str (cl "mcp__ohno__set_blocker") →
      ¬((pyLookup fs (cl "tool_name")).getD (.str []) = .str (cl "Bash") ∧
        (pyLookup fs (cl "hook_event_name")).getD (.str []) = .str (cl "PreToolUse")) →
      ¬((pyLookup fs (cl "tool_name")).getD (.str []) = .str (cl "Skill") ∧
        (pyLookup fs (cl "hook_event_name")).getD (.str []) = .str (cl "PostToolUse")) →
      ¬((pyLookup fs (cl "tool_name")).getD (.str []) = .str (cl "Task") ∧
        (pyLookup fs (cl "hook_event_name")).getD (.str []) = .str (cl "PostToolUse")) →
      ¬(((pyLookup fs (cl "tool_name")).getD (.str []) = .str (cl "Edit") ∨
         (pyLookup fs (cl "tool_name")).getD (.str []) = .str (cl "Write")) ∧
        (pyLookup fs (cl "hook_event_name")).getD (.str []) = .str (cl "PostToolUse")) →
      ¬((pyLookup fs (cl "tool_name")).getD (.str []) = .str (cl "Bash") ∧
        (pyLookup fs (cl "hook_event_name")).getD (.str []) = .str (cl "PostToolUse")) →
      mainRun (.ok j) w s = .printed .empty s)
    ∧ (∀ he res s' sv, dispatch j w s = .ok (he, res, s') →
      pyGetE res (cl "skip") .null = .ok sv →
      (pyTruthy res = false ∨ pyTruthy sv = true ∨ he = .str (cl "SessionEnd")) →
      mainRun (.ok j) w s = .printed .empty s')
    ∧ (∀ he res s' sv ctx bv, dispatch j w s = .ok (he, res, s') →
      pyTruthy res = true →
      pyGetE res (cl "skip") .null = .ok sv →
      pyTruthy sv = false →
      he ≠ .str (cl "SessionEnd") →
      format_context res = .ok ctx →
      pyGetE res (cl "block") .null = .ok bv →
      ((pyTruthy bv = false →
          mainRun (.ok j) w s = .printed (.ctx he ctx none) s')
       ∧ (∀ rv, pyTruthy bv = true →
          pyGetE res (cl "reason") (.str (cl "Hook check failed")) = .ok rv →
          mainRun (.ok j) w s = .printed (.ctx he ctx (some rv)) s'))) := by
  refine ⟨?_, ?_, ?_⟩
  · intro fs hj h1 h2 h3 h4 h5 h6 h7 h8 h9
    subst hj
    have hd : dispatch (.obj fs) w s =
        .ok ((pyLookup fs (cl "hook_event_name")).getD (.str []),
          skipObj (cl "unhandled event: " ++
            pyStr ((pyLookup fs (cl "hook_event_name")).getD (.str [])) ++ cl "/" ++
            pyStr ((pyLookup fs (cl "tool_name")).getD (.str []))), s) := by
      unfold dispatch
      simp only [pyGetE, bind, Except.bind]
      rw [if_neg h1, if_neg h2, if_neg h3, if_neg h4, if_neg h5, if_neg h6, if_neg h7,
        if_neg h8, if_neg h9]
    unfold mainRun
    simp only [hd]
    rfl
  · intro he res s' sv hdisp hsv hcase
    unfold mainRun
    simp only [hdisp]
    unfold emit_output
    cases htr : pyTruthy res with
    | false => simp [htr]
    | true =>
        rcases hcase with hc | hc | hc
        · rw [htr] at hc; cases hc
        · simp [htr, hsv, hc, bind, Except.bind]
        · subst hc
          by_cases hsvt : pyTruthy sv = true
          · simp [htr, hsv, hsvt, bind, Except.bind]
          · have hsvf : pyTruthy sv = false := by
              cases hb : pyTruthy sv
              · rfl
              · exact absurd hb hsvt
            simp [htr, hsv, hsvf, bind, Except.bind]
  · intro he res s' sv ctx bv hdisp htr hsv hsvf hne hctx hbl
    constructor
    · intro hbf
      unfold mainRun
      simp only [hdisp]
      unfold emit_output
      simp [htr, hsv, hsvf, hne, hctx, hbl, hbf, bind, Except.bind]
    · intro rv hbt hrv
      unfold mainRun
      simp only [hdisp]
      unfold emit_output
      simp [htr, hsv, hsvf, hne, hctx, hbl, hbt, hrv, bind, Except.bind]

/-- Witness for C2 (amended) at concrete inputs: an unrecognized
combination prints `{}`, and a blocking pre-commit invocation prints the
`hookSpecificOutput` object with `decision: block` and the joined failure
reason. -/
theorem c2_output_shape_amended_witness :
    mainRun (.ok (.obj c2UnrecFields)) baseWorld st0 = .printed .empty st0
    ∧ mainRun (.ok c2BlockInput) c2BlockWorld st0 =
        .printed
          (.ctx (.str (cl "PreToolUse"))
            ((format_context
              ((dispatch c2BlockInput c2BlockWorld st0).toOption.getD
                (.null, .null, st0)).2.1).toOption.getD [])
            (some (.str (cl "lint, check-ref-sizes failed"))))
          ((dispatch c2BlockInput c2BlockWorld st0).toOption.getD (.null, .null, st0)).2.2 := by
  constructor
  · exact (c2_output_shape_amended (.obj c2UnrecFields) baseWorld st0).1 c2UnrecFields rfl
      (by decide) (by decide) (by decide) (by decide) (by decide) (by decide) (by decide)
      (by decide) (by decide)
  · exact ((c2_output_shape_amended c2BlockInput c2BlockWorld st0).2.2
      (.str (cl "PreToolUse"))
      ((dispatch c2BlockInput c2BlockWorld st0).toOption.getD (.null, .null, st0)).2.1
      ((dispatch c2BlockInput c2BlockWorld st0).toOption.getD (.null, .null, st0)).2.2
      .null
      ((format_context
        ((dispatch c2BlockInput c2BlockWorld st0).toOption.getD
          (.null, .null, st0)).2.1).toOption.getD [])
      (.bool true)
      (by decide) (by decide) (by decide) (by decide) (by decide) (by decide)
      (by decide)).2
      (.str (cl "lint, check-ref-sizes failed")) (by decide) (by decide)

theorem applyCD_continue (w : World) (n : List Char) (rc : Int) (out err : List Char)
    (cs : ChainState) (s : St) (cd : PyJson)
    (hne : (stripWS out).isEmpty = false)
    (hjson : w.jsonLoads (stripWS out) = .ok cd)
    (hactn : pyGetE cd (cl "action") (.str []) = .ok (.str (cl "continue"))) :
    applyChainDecision w (completedOutcome n rc out err) cs s =
      .ok (saveChainState s { cs with chain_index := cs.chain_index + 1 }) := by
  have hpt : pyTruthy (.str (stripWS out)) = true := by simp [pyTruthy, hne]
  unfold applyChainDecision
  simp only [show pyTruthy (completedOutcome n rc out err) = true from rfl,
    show pyGetE (completedOutcome n rc out err) (cl "output") PyJson.null =
      .ok (.str (stripWS out)) from rfl,
    bind, Except.bind, hpt, hjson, hactn]
  rfl

theorem applyCD_terminal (w : World) (n : List Char) (rc : Int) (out err : List Char)
    (cs : ChainState) (s : St) (cd : PyJson) (act : List Char)
    (hne : (stripWS out).isEmpty = false)
    (hjson : w.jsonLoads (stripWS out) = .ok cd)
    (hactn : pyGetE cd (cl "action") (.str []) = .ok (.str act))
    (hterm : act = cl "complete" ∨ act = cl "limit_reached") :
    applyChainDecision w (completedOutcome n rc out err) cs s =
      .ok (deleteChainState s) := by
  have hpt : pyTruthy (.str (stripWS out)) = true := by simp [pyTruthy, hne]
  unfold applyChainDecision
  simp only [show pyTruthy (completedOutcome n rc out err) = true from rfl,
    show pyGetE (completedOutcome n rc out err) (cl "output") PyJson.null =
      .ok (.str (stripWS out)) from rfl,
    bind, Except.bind, hpt, hjson, hactn]
  rcases hterm with h | h <;> subst h <;> rfl

theorem applyCD_noop (w : World) (n : List Char) (rc : Int) (out err : List Char)
    (cs : ChainState) (s : St)
    (hcase : w.jsonLoads (stripWS out) = .error () ∨ (stripWS out).isEmpty = true) :
    applyChainDecision w (completedOutcome n rc out err) cs s = .ok s := by
  unfold applyChainDecision
  simp only [show pyTruthy (completedOutcome n rc out err) = true from rfl,
    show pyGetE (completedOutcome n rc out err) (cl "output") PyJson.null =
      .ok (.str (stripWS out)) from rfl,
    bind, Except.bind]
  rcases hcase with h | h
  · by_cases hne : (stripWS out).isEmpty = true
    · have hpt : pyTruthy (.str (stripWS out)) = false := by simp [pyTruthy, hne]
      simp only [hpt]
      rfl
    · have hne' : (stripWS out).isEmpty = false := by
        cases hb : (stripWS out).isEmpty
        · rfl
        · exact absurd hb hne
      have hpt : pyTruthy (.str (stripWS out)) = true := by simp [pyTruthy, hne']
      simp only [hpt, h]
      rfl
  · have hpt : pyTruthy (.str (stripWS out)) = false := by simp [pyTruthy, h]
    simp only [hpt]
    rfl

theorem sessionEndResponse_completed_ok (w : World) (r1 r2 : PyJson) (n : List Char)
    (rc : Int) (out err : List Char) (s : St)
    (h1 : ∃ stv, pyIndexE r1 (cl "status") = .ok (.str stv))
    (h2 : ∃ stv, pyIndexE r2 (cl "status") = .ok (.str stv)) :
    ∃ res, sessionEndResponse w [r1, r2, completedOutcome n rc out err]
      (some (completedOutcome n rc out err)) s = .ok (res, s) := by
  obtain ⟨stv1, hst1⟩ := h1
  obtain ⟨stv2, hst2⟩ := h2
  have hco : pyIndexE (completedOutcome n rc out err) (cl "status") =
      .ok (.str (if rc = 0 then cl "success" else cl "warning")) := rfl
  have hcount : ∀ v, ∃ k, countStatus [r1, r2, completedOutcome n rc out err] v = .ok k := by
    intro v
    refine countStatus_exists ?_ v
    intro r hr
    rcases List.mem_cons.mp hr with h | hr2
    · exact ⟨stv1, h ▸ hst1⟩
    · rcases List.mem_cons.mp hr2 with h | hr3
      · exact ⟨stv2, h ▸ hst2⟩
      · rcases List.mem_cons.mp hr3 with h | himp
        · exact ⟨_, h ▸ hco⟩
        · cases himp
  obtain ⟨ks, hks⟩ := hcount (cl "success")
  obtain ⟨kw, hkw⟩ := hcount (cl "warning")
  unfold sessionEndResponse
  simp only [hks, hkw, bind, Except.bind,
    show pyTruthy (completedOutcome n rc out err) = true from rfl,
    show pyGetE (completedOutcome n rc out err) (cl "output") PyJson.null =
      .ok (.str (stripWS out)) from rfl]
  by_cases hne : (stripWS out).isEmpty = true
  · have hpt : pyTruthy (.str (stripWS out)) = false := by simp [pyTruthy, hne]
    simp only [hpt]
    exact ⟨_, rfl⟩
  · have hne' : (stripWS out).isEmpty = false := by
      cases hb : (stripWS out).isEmpty
      · rfl
      · exact absurd hb hne
    have hpt : pyTruthy (.str (stripWS out)) = true := by simp [pyTruthy, hne']
    simp only [hpt]
    cases hjs : w.jsonLoads (stripWS out) with
    | error e =>
        simp only [hjs]
        exact ⟨_, rfl⟩
    | ok cd =>
        simp only [hjs]
        exact ⟨_, rfl⟩

theorem handle_session_end_chain_shape (w : World) (s : St) (cs : ChainState)
    (inp : PyJson) (rc : Int) (out err : List Char) (hv : PyJson × PyJson × PyJson)
    (senv : List (List Char × List Char))
    (hfile : s.chainFile = some cs)
    (hid : cs.chain_id ≠ [])
    (hexec : lookupExecs s.hookExecutions (cl "session-chain") = [])
    (hact : w.actions (cl "session-chain") = ⟨true, .completed rc out err⟩)
    (hhv : loadHeadless w = .ok hv)
    (hsan : sanitizeEnvAll (buildChainEnv cs hv) = .ok senv) :
    ∃ r1 r2 s4, s4.chainFile = some cs
      ∧ (∃ stv, pyIndexE r1 (cl "status") = .ok (.str stv))
      ∧ (∃ stv, pyIndexE r2 (cl "status") = .ok (.str stv))
      ∧ handle_session_end inp w s =
          (applyChainDecision w (completedOutcome (cl "session-chain") rc out err) cs s4)
            >>= (fun s5 => sessionEndResponse w
              [r1, r2, completedOutcome (cl "session-chain") rc out err]
              (some (completedOutcome (cl "session-chain") rc out err)) s5) := by
  rcases hr1 : run_action w (cl "sync") [] [] s with ⟨r1, s1⟩
  rcases hr2 : run_action w (cl "session-summary") [] [] s1 with ⟨r2, s2⟩
  have hcf1 : s1.chainFile = s.chainFile := by
    have h := (run_action_preserves w (cl "sync") [] [] s).1
    rw [hr1] at h
    exact h
  have hcf2 : s2.chainFile = some cs := by
    have h := (run_action_preserves w (cl "session-summary") [] [] s1).1
    rw [hr2] at h
    rw [h, hcf1, hfile]
  have hex1 : lookupExecs s1.hookExecutions (cl "session-chain") = [] := by
    have h := @run_action_execs_other w (cl "sync") [] [] s (cl "session-chain") (by decide)
    rw [hr1] at h
    rw [h, hexec]
  have hex2 : lookupExecs s2.hookExecutions (cl "session-chain") = [] := by
    have h := @run_action_execs_other w (cl "session-summary") [] [] s1 (cl "session-chain")
      (by decide)
    rw [hr2] at h
    rw [h, hex1]
  have hst1 : ∃ stv, pyIndexE r1 (cl "status") = .ok (.str stv) := by
    have h := run_action_has_status w (cl "sync") [] [] s
    rw [hr1] at h
    exact h
  have hst2 : ∃ stv, pyIndexE r2 (cl "status") = .ok (.str stv) := by
    have h := run_action_has_status w (cl "session-summary") [] [] s1
    rw [hr2] at h
    exact h
  have hidf : cs.chain_id.isEmpty = false := by
    cases h' : cs.chain_id with
    | nil => exact absurd h' hid
    | cons a l => rfl
  have hadm : ((lookupExecs (writeChainLearnings cs cs.tasks_completed s2).hookExecutions
      (cl "session-chain")).filter
      (fun t => w.now - t < RATE_LIMIT_WINDOW_SECONDS)).length
        < RATE_LIMIT_MAX_EXECUTIONS := by
    have hex3 : lookupExecs (writeChainLearnings cs cs.tasks_completed s2).hookExecutions
        (cl "session-chain") = [] := hex2
    rw [hex3]
    simp [RATE_LIMIT_MAX_EXECUTIONS]
  have hrun := run_action_exec w (cl "session-chain") [] (buildChainEnv cs hv)
    (writeChainLearnings cs cs.tasks_completed s2) (.completed rc out err) senv
    hact hadm hsan
  unfold handle_session_end
  simp only [hr1, hr2]
  have hload : loadChainState s2 = cs := by
    unfold loadChainState
    rw [hcf2]
  rw [hload, if_neg (by simp [hidf])]
  simp only [hhv, bind, Except.bind, hrun]
  refine ⟨r1, r2, _, ?_, hst1, hst2, rfl⟩
  exact hcf2

/-- C6: Chain state machine advancement (bridge.py lines 548-582, spec section 4.5).
When a chain file exists with a non-empty chain id, `handle_session_end` invokes the
session-chain action with the chain environment; when the action completes and its
trimmed output decodes to a JSON object, an action field of "continue" saves the chain
state with chain_index incremented by one, "complete" or "limit_reached" deletes the
chain state file, and a decode failure or empty output leaves the chain state
unchanged. -/
theorem c6_chain_transitions (w : World) (s : St) (cs : ChainState)
    (inp : PyJson) (rc : Int) (out err : List Char) (hv : PyJson × PyJson × PyJson)
    (senv : List (List Char × List Char))
    (hfile : s.chainFile = some cs)
    (hid : cs.chain_id ≠ [])
    (hexec : lookupExecs s.hookExecutions (cl "session-chain") = [])
    (hact : w.actions (cl "session-chain") = ⟨true, .completed rc out err⟩)
    (hhv : loadHeadless w = .ok hv)
    (hsan : sanitizeEnvAll (buildChainEnv cs hv) = .ok senv) :
    (∀ cd : PyJson, (stripWS out).isEmpty = false →
      w.jsonLoads (stripWS out) = .ok cd →
      pyGetE cd (cl "action") (.str []) = .ok (.str (cl "continue")) →
      ∃ res s2, handle_session_end inp w s = .ok (res, s2) ∧
        s2.chainFile = some { cs with chain_index := cs.chain_index + 1 })
    ∧ (∀ (cd : PyJson) (act : List Char), (stripWS out).isEmpty = false →
      w.jsonLoads (stripWS out) = .ok cd →
      pyGetE cd (cl "action") (.str []) = .ok (.str act) →
      (act = cl "complete" ∨ act = cl "limit_reached") →
      ∃ res s2, handle_session_end inp w s = .ok (res, s2) ∧ s2.chainFile = none)
    ∧ ((w.jsonLoads (stripWS out) = .error () ∨ (stripWS out).isEmpty = true) →
      ∃ res s2, handle_session_end inp w s = .ok (res, s2) ∧ s2.chainFile = some cs) := by
  obtain ⟨r1, r2, s4, hcf4, hst1, hst2, heq⟩ :=
    handle_session_end_chain_shape w s cs inp rc out err hv senv
      hfile hid hexec hact hhv hsan
  refine ⟨?_, ?_, ?_⟩
  · intro cd hne hjson hactn
    rw [heq, applyCD_continue w (cl "session-chain") rc out err cs s4 cd hne hjson hactn]
    obtain ⟨res, hres⟩ := sessionEndResponse_completed_ok w r1 r2 (cl "session-chain")
      rc out err (saveChainState s4 { cs with chain_index := cs.chain_index + 1 }) hst1 hst2
    exact ⟨res, _, by simpa [bind, Except.bind] using hres, rfl⟩
  · intro cd act hne hjson hactn hterm
    rw [heq, applyCD_terminal w (cl "session-chain") rc out err cs s4 cd act hne hjson
      hactn hterm]
    obtain ⟨res, hres⟩ := sessionEndResponse_completed_ok w r1 r2 (cl "session-chain")
      rc out err (deleteChainState s4) hst1 hst2
    exact ⟨res, _, by simpa [bind, Except.bind] using hres, rfl⟩
  · intro hcase
    rw [heq, applyCD_noop w (cl "session-chain") rc out err cs s4 hcase]
    obtain ⟨res, hres⟩ := sessionEndResponse_completed_ok w r1 r2 (cl "session-chain")
      rc out err s4 hst1 hst2
    exact ⟨res, _, by simpa [bind, Except.bind] using hres, hcf4⟩

/-- Witness for C6: with the active chain `c6Chain` at index 2 and a session-chain
action answering a `continue` decision, `handle_session_end` saves the chain state at
index 3. -/
theorem c6_chain_transitions_witness :
    ∃ res s2, handle_session_end (.obj []) c6World c6State = .ok (res, s2) ∧
      s2.chainFile = some { c6Chain with chain_index := c6Chain.chain_index + 1 } :=
  (c6_chain_transitions c6World c6State c6Chain (.obj []) 0 (cl "CONT") []
      (.num 10, .str (cl "on_complete"), .str (cl "terminal")) c6Senv
      rfl (by decide) rfl rfl rfl (by decide)).1
    (.obj [(cl "action", .str (cl "continue"))]) (by decide) (by decide) (by decide)

/-- Witness for C3 (amended): a metacharacter-bearing string value makes `run_action`
report `blocked` without spawning, while a clean environment reaches the spawn with the
sanitized overrides applied. -/
theorem c3_run_action_sanitizes_witness :
    (pyIndexE (run_action c5World (cl "deploy") [] c3BadEnv st0).1 (cl "status") =
        .ok (.str (cl "blocked"))
      ∧ (run_action c5World (cl "deploy") [] c3BadEnv st0).2.effects =
          st0.effects ++ [.ranAction (cl "deploy")])
    ∧ (run_action c5World (cl "deploy") [] [(cl "X", .str (cl "ab"))] st0).2.effects =
        st0.effects ++ [.ranAction (cl "deploy"),
          .spawned (cl "deploy") []
            (envUpdate c5World.environ [(cl "X", cl "ab")])] :=
  ⟨(c3_run_action_sanitizes c5World (cl "deploy") [] c3BadEnv st0 rfl
      (by decide)).1 ⟨cl "X", cl "a;b", by decide, by decide⟩,
   (c3_run_action_sanitizes c5World (cl "deploy") [] [(cl "X", .str (cl "ab"))] st0 rfl
      (by decide)).2 [(cl "X", cl "ab")] (by decide)⟩
